import Mathlib

/-!
# Verification of the ai_dub dubbing pipeline

A shallow embedding of the pipeline orchestrator of the `ai_dub` repository
(`main.py` plus the stage adapters under `utils/`) and proofs of the spec's
testable properties against it.

The external collaborators (pytube, yt-dlp, ffmpeg, whisper, the translation
services, the TTS libraries, moviepy) are modelled as abstract engine
functions that receive the current file system and report either a normal
return or a raised exception, mirroring the narrow contract the source code
relies on.  Every stage adapter and the orchestrator itself are translated
statement by statement from the Python source; log messages are kept
verbatim except that quote characters inside messages are elided.
-/

namespace AIDub

/-- A filesystem path (the source passes plain strings around). -/
abbrev FPath := String

/-- Python's `str.lower()`, written so that it evaluates by kernel
reduction (`String.toLower` itself is an opaque loop). -/
def strLower (s : String) : String := String.mk (s.data.map Char.toLower)

/-- Python's `s[:n]` slice, written so that it evaluates by kernel
reduction. -/
def strTake (s : String) (n : Nat) : String := String.mk (s.data.take n)

/-- The file system: maps a path to the content of the file stored there,
`none` when no file exists at that path.  An empty file is `some ""`;
a file's size is the length of its content. -/
def FS : Type := FPath → Option String

/-- Write (create or overwrite) the file at `p` with content `c`. -/
def fsSet (fs : FS) (p : FPath) (c : String) : FS :=
  fun q => if q = p then some c else fs q

/-- The empty file system. -/
def fsEmpty : FS := fun _ => none

/-- Relation: `fs1` keeps every file that exists in `fs` in existence.  Engines are
assumed to write files, never to delete unrelated artifacts. -/
def Preserves (fs fs1 : FS) : Prop := ∀ q, (fs q).isSome → (fs1 q).isSome

/-- Severity of a log record (the source uses Python's `logging` levels). -/
inductive LogLevel where
  | debug
  | info
  | warning
  | error
deriving DecidableEq, Repr

/-- One record appended to the run log. -/
structure LogEvent where
  level : LogLevel
  msg : String
deriving DecidableEq, Repr

def einfo (m : String) : LogEvent := ⟨LogLevel.info, m⟩

def ewarn (m : String) : LogEvent := ⟨LogLevel.warning, m⟩

def eerror (m : String) : LogEvent := ⟨LogLevel.error, m⟩

/-- Number of warning-level records in a log. -/
def warningCount (log : List LogEvent) : Nat :=
  (log.filter (fun e => e.level = LogLevel.warning)).length

/-- The message of the last error-level record of a log, if any. -/
def lastErrorMsg (log : List LogEvent) : Option String :=
  ((log.filter (fun e => e.level = LogLevel.error)).map LogEvent.msg).getLast?

/-- Message of the `FileNotFoundError` Python raises when `os.path.getsize`
is applied to a missing path. -/
def fileNotFoundMsg (p : FPath) : String :=
  "[Errno 2] No such file or directory: " ++ p

/-! ## Engine models

Each external tool or library is an abstract function of the current file
system.  A library call either returns normally, yielding the file system it
leaves behind, or raises, yielding the exception detail and the file system
at the moment of the raise (a raise may leave partial writes behind).  A
spawned process may fail to spawn (first component of the raise tells whether
the exception was a `FileNotFoundError`, i.e. the binary is not installed) or
run to completion with an exit code and captured stderr. -/

/-- pytube download attempt: url, output path, fs.  On raise the `Bool` tells
whether the exception was a `PytubeError` (`true`) or any other exception. -/
def PytubeEngine : Type := String → FPath → FS → Except (Bool × String × FS) FS

/-- yt-dlp subprocess: url, output path, fs.  On raise the `Bool` tells
whether the exception was a `FileNotFoundError` (binary missing). -/
def YtdlpEngine : Type :=
  String → FPath → FS → Except (Bool × String × FS) (Nat × String × FS)

/-- The ffmpeg binary: full command line, fs.  On raise the `Bool` tells
whether the exception was a `FileNotFoundError` (binary missing). -/
def FfmpegEngine : Type :=
  List String → FS → Except (Bool × String × FS) (Nat × String × FS)

/-- Whisper model inference: audio path, language hint, fs; yields the
transcript text on success. -/
def WhisperEngine : Type := FPath → String → FS → Except (String × FS) String

/-- A translation backend: text, source language, target language.  The
source's `translate_text_google` / `translate_text_openai` catch all of
their own exceptions and return `None` on failure. -/
def TranslateEngine : Type := String → String → String → Option String

/-- A plain TTS backend (gTTS, Bark, Coqui): text, engine language code,
output path, fs. -/
def TtsLibEngine : Type := String → String → FPath → FS → Except (String × FS) FS

/-- A voice-cloning TTS backend (YourTTS, XTTS): text, engine language code,
reference audio path, output path, fs. -/
def CloneEngine : Type :=
  String → String → FPath → FPath → FS → Except (String × FS) FS

/-- The moviepy merge path: video path, audio path, output path, fs. -/
def MoviepyEngine : Type := FPath → FPath → FPath → FS → Except (String × FS) FS

/-- Result of one stage-adapter invocation: the value the Python function
returns (`some path` on success, `none` on failure), the file system it
leaves behind, the log records it emitted, and the labels of the engine
invocations that actually ran (instrumentation used to state the spec's
zero-invocation and fallback properties). -/
structure StageOut where
  result : Option FPath
  fs : FS
  log : List LogEvent
  invocations : List String

/-- Prepend log records emitted before a nested call. -/
def withLog (pre : List LogEvent) (s : StageOut) : StageOut :=
  { s with log := pre ++ s.log }

/-- Prepend an engine-invocation label recorded before a nested call. -/
def withInv (i : String) (s : StageOut) : StageOut :=
  { s with invocations := i :: s.invocations }

/-! ## `utils/downloader.py` -/

def ytdlpNotInstalledMsg : String :=
  "yt-dlp is not installed. Install it with pip install yt-dlp"

/-- Embeds `download_video_with_yt_dlp(url, output_path, resolution)`. -/
def download_video_with_yt_dlp (ytdlp : YtdlpEngine) (fs : FS) (url : String)
    (output_path : FPath) : StageOut :=
  let pre := [einfo ("Attempting to download with yt-dlp: " ++ url)]
  match ytdlp url output_path fs with
  | .error (fnf, d, fs1) =>
      { result := none
        fs := fs1
        log := pre ++ [eerror (if fnf then ytdlpNotInstalledMsg
                               else "Error using yt-dlp: " ++ d)]
        invocations := ["yt-dlp"] }
  | .ok (code, stderr, fs1) =>
      if code ≠ 0 then
        { result := none
          fs := fs1
          log := pre ++ [eerror ("yt-dlp error: " ++ stderr)]
          invocations := ["yt-dlp"] }
      else
        match fs1 output_path with
        | none =>
            -- `os.path.getsize(output_path)` raises `FileNotFoundError`,
            -- which lands in the handler that reports a missing binary.
            { result := none
              fs := fs1
              log := pre ++ [eerror ytdlpNotInstalledMsg]
              invocations := ["yt-dlp"] }
        | some _ =>
            { result := some output_path
              fs := fs1
              log := pre ++
                [einfo ("Video downloaded successfully using yt-dlp to " ++ output_path)]
              invocations := ["yt-dlp"] }

/-- Embeds `download_youtube_video(url, output_path, resolution)`: tries pytube
first and falls back to yt-dlp whenever the pytube attempt raises. -/
def download_youtube_video (pytube : PytubeEngine) (ytdlp : YtdlpEngine)
    (fs : FS) (url : String) (output_path : FPath) : StageOut :=
  let pre := [einfo ("Downloading YouTube video: " ++ url)]
  match pytube url output_path fs with
  | .ok fs1 =>
      match fs1 output_path with
      | some _ =>
          { result := some output_path
            fs := fs1
            log := pre ++ [einfo ("Video downloaded successfully to " ++ output_path)]
            invocations := ["pytube"] }
      | none =>
          -- `os.path.getsize` raises; the generic handler logs and falls
          -- back to yt-dlp.
          withLog (pre ++
              [eerror ("Unexpected error during download: " ++
                fileNotFoundMsg output_path)])
            (withInv "pytube" (download_video_with_yt_dlp ytdlp fs1 url output_path))
  | .error (isPytubeErr, d, fs1) =>
      let pre2 := if isPytubeErr then
          [eerror ("Error downloading YouTube video with pytube: " ++ d),
           einfo "Trying alternative download method..."]
        else
          [eerror ("Unexpected error during download: " ++ d)]
      withLog (pre ++ pre2)
        (withInv "pytube" (download_video_with_yt_dlp ytdlp fs1 url output_path))

/-! ## `utils/audio_extractor.py` -/

/-- The exact ffmpeg command `extract_audio` builds. -/
def extract_cmd (video_path audio_path : FPath) (sample_rate channels : Nat) :
    List String :=
  ["ffmpeg", "-y", "-i", video_path, "-vn", "-acodec", "pcm_s16le",
   "-ar", toString sample_rate, "-ac", toString channels, audio_path]

def ffmpegNotFoundMsg : String :=
  "ffmpeg not found. Please install ffmpeg and ensure it is in your PATH."

/-- Embeds `extract_audio(video_path, audio_path, sample_rate=16000, channels=1)`. -/
def extract_audio (ffmpeg : FfmpegEngine) (fs : FS)
    (video_path audio_path : FPath) (sample_rate : Nat)
    (channels : Nat) : StageOut :=
  let pre := [einfo ("Extracting audio from video: " ++ video_path)]
  if (fs video_path).isNone then
    { result := none
      fs := fs
      log := pre ++ [eerror ("Video file not found: " ++ video_path)]
      invocations := [] }
  else
    match ffmpeg (extract_cmd video_path audio_path sample_rate channels) fs with
    | .error (fnf, d, fs1) =>
        { result := none
          fs := fs1
          log := pre ++ [eerror (if fnf then ffmpegNotFoundMsg
                                 else "Unexpected error during audio extraction: " ++ d)]
          invocations := ["ffmpeg"] }
    | .ok (code, stderr, fs1) =>
        if code ≠ 0 then
          { result := none
            fs := fs1
            log := pre ++ [eerror ("Error extracting audio: " ++ stderr)]
            invocations := ["ffmpeg"] }
        else
          match fs1 audio_path with
          | none =>
              -- `os.path.getsize(audio_path)` raises `FileNotFoundError`,
              -- caught by the handler that reports a missing binary.
              { result := none
                fs := fs1
                log := pre ++ [eerror ffmpegNotFoundMsg]
                invocations := ["ffmpeg"] }
          | some _ =>
              { result := some audio_path
                fs := fs1
                log := pre ++ [einfo ("Audio extracted successfully to " ++ audio_path)]
                invocations := ["ffmpeg"] }

/-! ## `utils/transcriber.py` -/

/-- Embeds `transcribe_audio(audio_path, output_path, model_name, language)`:
runs Whisper on the audio and writes the transcript text itself. -/
def transcribe_audio (whisper : WhisperEngine) (fs : FS)
    (audio_path output_path : FPath) (model_name language : String) : StageOut :=
  let pre := [einfo ("Transcribing audio: " ++ audio_path ++ " using Whisper " ++
      model_name ++ " model")]
  if (fs audio_path).isNone then
    { result := none
      fs := fs
      log := pre ++ [eerror ("Audio file not found: " ++ audio_path)]
      invocations := [] }
  else
    match whisper audio_path language fs with
    | .error (d, fs1) =>
        { result := none
          fs := fs1
          log := pre ++ [eerror ("Error during transcription: " ++ d)]
          invocations := ["whisper"] }
    | .ok transcript =>
        { result := some output_path
          fs := fsSet fs output_path transcript
          log := pre ++ [einfo ("Transcript saved to " ++ output_path)]
          invocations := ["whisper"] }

/-! ## `utils/translator.py` -/

/-- Embeds `translate_file(input_path, output_path, source_lang, target_lang,
engine)`: reads the transcript, dispatches on the engine name, writes the
translated text itself. -/
def translate_file (googleT openaiT : TranslateEngine) (fs : FS)
    (input_path output_path : FPath) (source_lang target_lang engine : String) :
    StageOut :=
  let pre := [einfo ("Translating file: " ++ input_path ++ " using " ++ engine)]
  if (fs input_path).isNone then
    { result := none
      fs := fs
      log := pre ++ [eerror ("Input file not found: " ++ input_path)]
      invocations := [] }
  else
    let text := (fs input_path).getD ""
    let finish (label : String) (translated : Option String) : StageOut :=
      match translated with
      | none =>
          { result := none
            fs := fs
            log := pre ++ [eerror "Translation failed"]
            invocations := [label] }
      | some tr =>
          { result := some output_path
            fs := fsSet fs output_path tr
            log := pre ++ [einfo ("Translated text saved to " ++ output_path)]
            invocations := [label] }
    if strLower engine = "google" then
      finish "google-translate" (googleT text source_lang target_lang)
    else if strLower engine = "openai" then
      finish "openai" (openaiT text source_lang target_lang)
    else
      { result := none
        fs := fs
        log := pre ++ [eerror ("Unknown translation engine: " ++ engine)]
        invocations := [] }

/-! ## `utils/tts.py` -/

/-- The gTTS language table inside `generate_speech_gtts`. -/
def gtts_lang_mapping : String → Option String
  | "en" => some "en"
  | "tr" => some "tr"
  | "fr" => some "fr"
  | "es" => some "es"
  | "de" => some "de"
  | "ru" => some "ru"
  | "zh" => some "zh-CN"
  | "ja" => some "ja"
  | "ko" => some "ko"
  | "ar" => some "ar"
  | _ => none

/-- The YourTTS language table inside `generate_speech_voice_clone`. -/
def yourtts_lang_mapping : String → Option String
  | "en" => some "en"
  | "tr" => some "en"
  | "fr" => some "fr-fr"
  | "es" => some "en"
  | "de" => some "en"
  | "ru" => some "en"
  | "zh" => some "en"
  | "ja" => some "en"
  | "ko" => some "en"
  | "ar" => some "en"
  | "pt" => some "pt-br"
  | _ => none

/-- The lookup pattern shared by `generate_speech_gtts` and
`generate_speech_voice_clone`: exact key, then the first two characters,
then the default `"en"` together with a logged warning. -/
def resolve_lang (mapping : String → Option String) (language : String) :
    String × List LogEvent :=
  match mapping language with
  | some l => (l, [])
  | none =>
      match mapping (strTake language 2) with
      | some l => (l, [])
      | none =>
          ("en", [ewarn ("Language " ++ language ++
            " not found in mapping, defaulting to English")])

/-- Embeds `generate_speech_gtts(text, output_path, language)`. -/
def generate_speech_gtts (gtts : TtsLibEngine) (fs : FS) (text : String)
    (output_path : FPath) (language : String) : StageOut :=
  let rl := resolve_lang gtts_lang_mapping language
  let pre := [einfo ("Generating speech using Google TTS (language: " ++
      language ++ ")")] ++ rl.2
  match gtts text rl.1 output_path fs with
  | .error (d, fs1) =>
      { result := none
        fs := fs1
        log := pre ++ [eerror ("Error generating speech with Google TTS: " ++ d)]
        invocations := ["gtts:" ++ rl.1] }
  | .ok fs1 =>
      match fs1 output_path with
      | none =>
          -- `os.path.getsize` raises; the (only, generic) handler logs it.
          { result := none
            fs := fs1
            log := pre ++ [eerror ("Error generating speech with Google TTS: " ++
              fileNotFoundMsg output_path)]
            invocations := ["gtts:" ++ rl.1] }
      | some _ =>
          { result := some output_path
            fs := fs1
            log := pre ++ [einfo ("Speech generated successfully to " ++ output_path)]
            invocations := ["gtts:" ++ rl.1] }

/-- Embeds `generate_speech_bark(text, output_path, language, voice_preset)`; the
voice-preset choice is internal to the external Bark collaborator. -/
def generate_speech_bark (bark : TtsLibEngine) (fs : FS) (text : String)
    (output_path : FPath) (language : String) : StageOut :=
  match bark text language output_path fs with
  | .error (d, fs1) =>
      { result := none
        fs := fs1
        log := [eerror ("Error generating speech with Bark: " ++ d)]
        invocations := ["bark"] }
  | .ok fs1 =>
      match fs1 output_path with
      | none =>
          { result := none
            fs := fs1
            log := [eerror ("Error generating speech with Bark: " ++
              fileNotFoundMsg output_path)]
            invocations := ["bark"] }
      | some _ =>
          { result := some output_path
            fs := fs1
            log := [einfo ("Speech generated successfully to " ++ output_path)]
            invocations := ["bark"] }

/-- Embeds `generate_speech_coqui(text, output_path, language)`. -/
def generate_speech_coqui (coqui : TtsLibEngine) (fs : FS) (text : String)
    (output_path : FPath) (language : String) : StageOut :=
  match coqui text language output_path fs with
  | .error (d, fs1) =>
      { result := none
        fs := fs1
        log := [eerror ("Error generating speech with Coqui TTS: " ++ d)]
        invocations := ["coqui"] }
  | .ok fs1 =>
      match fs1 output_path with
      | none =>
          { result := none
            fs := fs1
            log := [eerror ("Error generating speech with Coqui TTS: " ++
              fileNotFoundMsg output_path)]
            invocations := ["coqui"] }
      | some _ =>
          { result := some output_path
            fs := fs1
            log := [einfo ("Speech generated successfully to " ++ output_path)]
            invocations := ["coqui"] }

/-- Embeds `generate_speech_voice_clone(text, output_path, reference_audio_path,
language)`: YourTTS voice cloning. -/
def generate_speech_voice_clone (yourtts : CloneEngine) (fs : FS) (text : String)
    (output_path reference_audio_path : FPath) (language : String) : StageOut :=
  if (fs reference_audio_path).isNone then
    { result := none
      fs := fs
      log := [eerror ("Reference audio file not found: " ++ reference_audio_path)]
      invocations := [] }
  else
    let rl := resolve_lang yourtts_lang_mapping language
    let pre := rl.2 ++ [einfo ("Using language code " ++ rl.1 ++
        " for YourTTS voice cloning")]
    match yourtts text rl.1 reference_audio_path output_path fs with
    | .error (d, fs1) =>
        { result := none
          fs := fs1
          log := pre ++ [eerror ("Error generating speech with voice cloning: " ++ d)]
          invocations := ["yourtts:" ++ rl.1] }
    | .ok fs1 =>
        match fs1 output_path with
        | none =>
            { result := none
              fs := fs1
              log := pre ++ [eerror ("Error generating speech with voice cloning: " ++
                fileNotFoundMsg output_path)]
              invocations := ["yourtts:" ++ rl.1] }
        | some _ =>
            { result := some output_path
              fs := fs1
              log := pre ++ [einfo ("Voice cloned speech generated successfully to " ++
                output_path)]
              invocations := ["yourtts:" ++ rl.1] }

/-- Embeds `text_to_speech(input_path, output_path, language, engine,
reference_audio)`: the Synthesizer dispatch. -/
def text_to_speech (bark coqui gtts : TtsLibEngine) (yourtts : CloneEngine)
    (fs : FS) (input_path output_path : FPath) (language engine : String)
    (reference_audio : Option FPath) : StageOut :=
  let pre := [einfo ("Converting text to speech: " ++ input_path ++ " using " ++
      engine ++ " engine")]
  if (fs input_path).isNone then
    { result := none
      fs := fs
      log := pre ++ [eerror ("Input file not found: " ++ input_path)]
      invocations := [] }
  else
    let text := (fs input_path).getD ""
    if strLower engine = "bark" then
      withLog pre (generate_speech_bark bark fs text output_path language)
    else if strLower engine = "coqui" then
      withLog pre (generate_speech_coqui coqui fs text output_path language)
    else if strLower engine = "gtts" then
      withLog pre (generate_speech_gtts gtts fs text output_path language)
    else if strLower engine = "voice_clone" then
      match reference_audio with
      | some ra =>
          if (fs ra).isSome then
            withLog pre (generate_speech_voice_clone yourtts fs text output_path
              ra language)
          else
            withLog (pre ++ [eerror "Voice cloning requires a valid reference audio file. Falling back to Google TTS."])
              (generate_speech_gtts gtts fs text output_path language)
      | none =>
          withLog (pre ++ [eerror "Voice cloning requires a valid reference audio file. Falling back to Google TTS."])
            (generate_speech_gtts gtts fs text output_path language)
    else
      withLog (pre ++ [eerror ("Unknown TTS engine: " ++ engine),
          einfo "Falling back to Google TTS"])
        (generate_speech_gtts gtts fs text output_path language)

/-! ## `utils/voice_cloner.py` and `utils/voice_cloner_fallback.py` -/

/-- The XTTS language table of `utils/voice_cloner.py`, identical to the
XTTS table inside `clone_voice_and_speak` of `utils/voice_cloner_fallback.py`. -/
def xtts_lang_mapping : String → Option String
  | "en" => some "en"
  | "fr" => some "fr"
  | "tr" => some "tr"
  | "es" => some "es"
  | "it" => some "it"
  | "de" => some "de"
  | "pt" => some "pt"
  | "pl" => some "pl"
  | "ru" => some "ru"
  | "nl" => some "nl"
  | "cs" => some "cs"
  | "ar" => some "ar"
  | "zh" => some "zh-cn"
  | "ja" => some "ja"
  | "ko" => some "ko"
  | "hu" => some "hu"
  | _ => none

/-- Embeds `lang_mapping.get(target_lang.lower(), "en")` of the XTTS modules. -/
def xtts_lang (target_lang : String) : String :=
  (xtts_lang_mapping (strLower target_lang)).getD "en"

/-- The gTTS language table of `clone_voice_fallback` in
`utils/voice_cloner_fallback.py` (note `zh` maps to `zh-CN` here). -/
def fb_gtts_lang_mapping : String → Option String
  | "en" => some "en"
  | "fr" => some "fr"
  | "tr" => some "tr"
  | "es" => some "es"
  | "it" => some "it"
  | "de" => some "de"
  | "pt" => some "pt"
  | "pl" => some "pl"
  | "ru" => some "ru"
  | "nl" => some "nl"
  | "cs" => some "cs"
  | "ar" => some "ar"
  | "zh" => some "zh-CN"
  | "ja" => some "ja"
  | "ko" => some "ko"
  | "hu" => some "hu"
  | _ => none

/-- Embeds `utils/voice_cloner.py`, `clone_voice_and_speak(text, speaker_wav_path,
target_lang, output_path)`: the XTTS Synthesizer variant. -/
def clone_voice_and_speak (xtts : CloneEngine) (fs : FS) (text : String)
    (speaker_wav_path : FPath) (target_lang : String) (output_path : FPath) :
    StageOut :=
  if (fs speaker_wav_path).isNone then
    { result := none
      fs := fs
      log := [eerror ("Speaker audio sample not found: " ++ speaker_wav_path)]
      invocations := [] }
  else
    let lang := xtts_lang target_lang
    let pre := [einfo ("Using language code " ++ lang ++ " for XTTS")]
    match xtts text lang speaker_wav_path output_path fs with
    | .error (d, fs1) =>
        { result := none
          fs := fs1
          log := pre ++ [eerror ("Error in voice cloning: " ++ d)]
          invocations := ["xtts:" ++ lang] }
    | .ok fs1 =>
        match fs1 output_path with
        | none =>
            -- `os.path.getsize(output_path)` raises inside the `try`.
            { result := none
              fs := fs1
              log := pre ++ [eerror ("Error in voice cloning: " ++
                fileNotFoundMsg output_path)]
              invocations := ["xtts:" ++ lang] }
        | some _ =>
            { result := some output_path
              fs := fs1
              log := pre ++ [einfo ("Generated audio saved to: " ++ output_path)]
              invocations := ["xtts:" ++ lang] }

/-- Embeds `utils/voice_cloner_fallback.py`, `clone_voice_fallback(text,
target_lang, output_path)`: the guaranteed-available gTTS baseline. -/
def clone_voice_fallback (gtts : TtsLibEngine) (fs : FS) (text : String)
    (target_lang : String) (output_path : FPath) : StageOut :=
  let lang := (fb_gtts_lang_mapping (strLower target_lang)).getD "en"
  let pre := [einfo ("Using language code " ++ lang ++ " for gTTS")]
  match gtts text lang output_path fs with
  | .error (d, fs1) =>
      { result := none
        fs := fs1
        log := pre ++ [eerror ("Error in fallback speech generation: " ++ d)]
        invocations := ["gtts:" ++ lang] }
  | .ok fs1 =>
      match fs1 output_path with
      | none =>
          { result := none
            fs := fs1
            log := pre ++ [eerror ("Error in fallback speech generation: " ++
              fileNotFoundMsg output_path)]
            invocations := ["gtts:" ++ lang] }
      | some _ =>
          { result := some output_path
            fs := fs1
            log := pre ++ [einfo ("Generated audio saved to: " ++ output_path)]
            invocations := ["gtts:" ++ lang] }

/-- Embeds `utils/voice_cloner_fallback.py`, `clone_voice_and_speak(text,
speaker_wav_path, target_lang, output_path)`: tries XTTS voice cloning when a
valid reference sample is given, and falls back to gTTS whenever the XTTS
attempt raises or the reference is absent.  Note the XTTS success branch
returns `output_path` without checking that the file was actually written. -/
def clone_voice_and_speak_fb (xtts : CloneEngine) (gtts : TtsLibEngine)
    (fs : FS) (text : String) (speaker_wav_path : Option FPath)
    (target_lang : String) (output_path : FPath) : StageOut :=
  match speaker_wav_path with
  | some p =>
      if (fs p).isSome then
        let lang := xtts_lang target_lang
        match xtts text lang p output_path fs with
        | .ok fs1 =>
            { result := some output_path
              fs := fs1
              log := [einfo ("XTTS voice cloning successful: " ++ output_path)]
              invocations := ["xtts:" ++ lang] }
        | .error (d, fs1) =>
            withLog [ewarn ("XTTS voice cloning failed: " ++ d),
                einfo "Falling back to gTTS..."]
              (withInv ("xtts:" ++ lang)
                (clone_voice_fallback gtts fs1 text target_lang output_path))
      else
        clone_voice_fallback gtts fs text target_lang output_path
  | none =>
      clone_voice_fallback gtts fs text target_lang output_path

/-! ## `utils/video_merger.py` -/

/-- The exact ffmpeg command `merge_video_audio_ffmpeg` builds. -/
def merge_cmd (video_path audio_path output_path : FPath) : List String :=
  ["ffmpeg", "-y", "-i", video_path, "-i", audio_path, "-map", "0:v:0",
   "-map", "1:a:0", "-c:v", "copy", "-c:a", "aac", "-b:a", "192k",
   "-shortest", output_path]

/-- Embeds `merge_video_audio_ffmpeg(video_path, audio_path, output_path)`. -/
def merge_video_audio_ffmpeg (ffmpeg : FfmpegEngine) (fs : FS)
    (video_path audio_path output_path : FPath) : StageOut :=
  let pre := [einfo ("Merging video and audio using ffmpeg: " ++ video_path ++
      " + " ++ audio_path)]
  if (fs video_path).isNone then
    { result := none
      fs := fs
      log := pre ++ [eerror ("Video file not found: " ++ video_path)]
      invocations := [] }
  else if (fs audio_path).isNone then
    { result := none
      fs := fs
      log := pre ++ [eerror ("Audio file not found: " ++ audio_path)]
      invocations := [] }
  else
    match ffmpeg (merge_cmd video_path audio_path output_path) fs with
    | .error (fnf, d, fs1) =>
        { result := none
          fs := fs1
          log := pre ++ [eerror (if fnf then ffmpegNotFoundMsg
                                 else "Unexpected error during video/audio merging: " ++ d)]
          invocations := ["ffmpeg"] }
    | .ok (code, stderr, fs1) =>
        if code ≠ 0 then
          { result := none
            fs := fs1
            log := pre ++ [eerror ("Error merging video and audio: " ++ stderr)]
            invocations := ["ffmpeg"] }
        else
          match fs1 output_path with
          | none =>
              -- `os.path.getsize` raises `FileNotFoundError`, caught by the
              -- handler that reports a missing binary.
              { result := none
                fs := fs1
                log := pre ++ [eerror ffmpegNotFoundMsg]
                invocations := ["ffmpeg"] }
          | some _ =>
              { result := some output_path
                fs := fs1
                log := pre ++ [einfo ("Video and audio merged successfully to " ++
                  output_path)]
                invocations := ["ffmpeg"] }

/-- Embeds `merge_video_audio_moviepy(video_path, audio_path, output_path)`. -/
def merge_video_audio_moviepy (moviepy : MoviepyEngine) (fs : FS)
    (video_path audio_path output_path : FPath) : StageOut :=
  let pre := [einfo ("Merging video and audio using moviepy: " ++ video_path ++
      " + " ++ audio_path)]
  if (fs video_path).isNone then
    { result := none
      fs := fs
      log := pre ++ [eerror ("Video file not found: " ++ video_path)]
      invocations := [] }
  else if (fs audio_path).isNone then
    { result := none
      fs := fs
      log := pre ++ [eerror ("Audio file not found: " ++ audio_path)]
      invocations := [] }
  else
    match moviepy video_path audio_path output_path fs with
    | .error (d, fs1) =>
        { result := none
          fs := fs1
          log := pre ++ [eerror ("Error merging video and audio with moviepy: " ++ d)]
          invocations := ["moviepy"] }
    | .ok fs1 =>
        match fs1 output_path with
        | none =>
            { result := none
              fs := fs1
              log := pre ++ [eerror ("Error merging video and audio with moviepy: " ++
                fileNotFoundMsg output_path)]
              invocations := ["moviepy"] }
        | some _ =>
            { result := some output_path
              fs := fs1
              log := pre ++ [einfo ("Video and audio merged successfully to " ++
                output_path)]
              invocations := ["moviepy"] }

/-- Embeds `merge_video_audio(video_path, audio_path, output_path, use_ffmpeg=True)`.
In the source the ffmpeg call sits inside a `try` whose `except` falls back to
`merge_video_audio_moviepy`; but `merge_video_audio_ffmpeg` catches every
exception internally and returns `None` instead of raising, so that fallback
branch can never execute. -/
def merge_video_audio (ffmpeg : FfmpegEngine) (moviepy : MoviepyEngine)
    (fs : FS) (video_path audio_path output_path : FPath)
    (use_ffmpeg : Bool) : StageOut :=
  if use_ffmpeg then
    merge_video_audio_ffmpeg ffmpeg fs video_path audio_path output_path
  else
    merge_video_audio_moviepy moviepy fs video_path audio_path output_path

/-! ## `config/settings.py`

Path constants, written relative to the project base directory. -/

def TEMP_VIDEO_PATH : FPath := "outputs/temp_video.mp4"

def TEMP_AUDIO_PATH : FPath := "outputs/temp_audio.wav"

def TEMP_TRANSCRIPT_PATH : FPath := "outputs/transcript.txt"

def TEMP_TRANSLATED_PATH : FPath := "outputs/translated.txt"

def TEMP_DUBBED_AUDIO_PATH : FPath := "outputs/dubbed_audio.wav"

def OUTPUT_VIDEO_PATH : FPath := "outputs/dubbed_video.mp4"

def WHISPER_MODEL : String := "base"

def TRANSLATION_ENGINE : String := "google"

/-! ## `main.py`: the pipeline orchestrator -/

/-- The bundle of external engines one run works with (the concrete
collaborators behind the six stage roles). -/
structure Engines where
  pytube : PytubeEngine
  ytdlp : YtdlpEngine
  ffmpeg : FfmpegEngine
  whisper : WhisperEngine
  googleT : TranslateEngine
  openaiT : TranslateEngine
  bark : TtsLibEngine
  coqui : TtsLibEngine
  gtts : TtsLibEngine
  yourtts : CloneEngine
  xtts : CloneEngine
  moviepy : MoviepyEngine

/-- Step 5 of `process_video`: the direct voice-cloning path when the engine
is `voice_clone` and a reference audio was given, the regular
`text_to_speech` dispatch otherwise. -/
def run_stage5 (E : Engines) (fs : FS) (translated_path : FPath)
    (target_lang tts_engine : String) (reference_audio : Option FPath) :
    StageOut :=
  match reference_audio with
  | some ra =>
      if tts_engine = "voice_clone" then
        clone_voice_and_speak_fb E.xtts E.gtts fs ((fs translated_path).getD "")
          (some ra) target_lang TEMP_DUBBED_AUDIO_PATH
      else
        text_to_speech E.bark E.coqui E.gtts E.yourtts fs translated_path
          TEMP_DUBBED_AUDIO_PATH target_lang tts_engine (some ra)
  | none =>
      text_to_speech E.bark E.coqui E.gtts E.yourtts fs translated_path
        TEMP_DUBBED_AUDIO_PATH target_lang tts_engine none

/-- Outcome of one whole orchestrator run: the value `process_video` returns,
the final file system and log, plus instrumentation — the result of every
stage that was entered (in order), the engine invocations that ran, and,
for every hand-over from a stage to the next, the stage number receiving the
artifact, the path handed over, and the content stored at that path at the
moment of the hand-over. -/
structure RunOut where
  result : Option FPath
  fs : FS
  log : List LogEvent
  stageResults : List (Nat × Option FPath)
  invocations : List String
  handoffs : List (Nat × FPath × Option String)

/-- Embeds `main.py`, `process_video(youtube_url, source_lang, target_lang,
tts_engine, reference_audio)`: runs the six stages in order, aborting with
`None` as soon as one of them fails. -/
def process_video (E : Engines) (fs : FS) (youtube_url : String)
    (source_lang target_lang tts_engine : String)
    (reference_audio : Option FPath) : RunOut :=
  let pre := [einfo ("Starting AI dubbing process for: " ++ youtube_url)]
  let s1 := download_youtube_video E.pytube E.ytdlp fs youtube_url TEMP_VIDEO_PATH
  match s1.result with
  | none =>
      { result := none
        fs := s1.fs
        log := pre ++ s1.log ++ [eerror "Failed to download video. Exiting."]
        stageResults := [(1, none)]
        invocations := s1.invocations
        handoffs := [] }
  | some video_path =>
      let s2 := extract_audio E.ffmpeg s1.fs video_path TEMP_AUDIO_PATH 16000 1
      match s2.result with
      | none =>
          { result := none
            fs := s2.fs
            log := pre ++ s1.log ++ s2.log ++
              [eerror "Failed to extract audio. Exiting."]
            stageResults := [(1, some video_path), (2, none)]
            invocations := s1.invocations ++ s2.invocations
            handoffs := [(2, video_path, s1.fs video_path)] }
      | some audio_path =>
          let s3 := transcribe_audio E.whisper s2.fs audio_path
            TEMP_TRANSCRIPT_PATH WHISPER_MODEL source_lang
          match s3.result with
          | none =>
              { result := none
                fs := s3.fs
                log := pre ++ s1.log ++ s2.log ++ s3.log ++
                  [eerror "Failed to transcribe audio. Exiting."]
                stageResults := [(1, some video_path), (2, some audio_path), (3, none)]
                invocations := s1.invocations ++ s2.invocations ++ s3.invocations
                handoffs := [(2, video_path, s1.fs video_path),
                             (3, audio_path, s2.fs audio_path)] }
          | some transcript_path =>
              let s4 := translate_file E.googleT E.openaiT s3.fs transcript_path
                TEMP_TRANSLATED_PATH source_lang target_lang TRANSLATION_ENGINE
              match s4.result with
              | none =>
                  { result := none
                    fs := s4.fs
                    log := pre ++ s1.log ++ s2.log ++ s3.log ++ s4.log ++
                      [eerror "Failed to translate text. Exiting."]
                    stageResults := [(1, some video_path), (2, some audio_path),
                                     (3, some transcript_path), (4, none)]
                    invocations := s1.invocations ++ s2.invocations ++
                      s3.invocations ++ s4.invocations
                    handoffs := [(2, video_path, s1.fs video_path),
                                 (3, audio_path, s2.fs audio_path),
                                 (4, transcript_path, s3.fs transcript_path)] }
              | some translated_path =>
                  let s5 := run_stage5 E s4.fs translated_path target_lang
                    tts_engine reference_audio
                  match s5.result with
                  | none =>
                      { result := none
                        fs := s5.fs
                        log := pre ++ s1.log ++ s2.log ++ s3.log ++ s4.log ++
                          s5.log ++ [eerror "Failed to generate speech. Exiting."]
                        stageResults := [(1, some video_path), (2, some audio_path),
                                         (3, some transcript_path),
                                         (4, some translated_path), (5, none)]
                        invocations := s1.invocations ++ s2.invocations ++
                          s3.invocations ++ s4.invocations ++ s5.invocations
                        handoffs := [(2, video_path, s1.fs video_path),
                                     (3, audio_path, s2.fs audio_path),
                                     (4, transcript_path, s3.fs transcript_path),
                                     (5, translated_path, s4.fs translated_path)] }
                  | some dubbed_audio_path =>
                      let s6 := merge_video_audio E.ffmpeg E.moviepy s5.fs
                        video_path dubbed_audio_path OUTPUT_VIDEO_PATH true
                      match s6.result with
                      | none =>
                          { result := none
                            fs := s6.fs
                            log := pre ++ s1.log ++ s2.log ++ s3.log ++ s4.log ++
                              s5.log ++ s6.log ++
                              [eerror "Failed to merge video and audio. Exiting."]
                            stageResults := [(1, some video_path), (2, some audio_path),
                                             (3, some transcript_path),
                                             (4, some translated_path),
                                             (5, some dubbed_audio_path), (6, none)]
                            invocations := s1.invocations ++ s2.invocations ++
                              s3.invocations ++ s4.invocations ++ s5.invocations ++
                              s6.invocations
                            handoffs := [(2, video_path, s1.fs video_path),
                                         (3, audio_path, s2.fs audio_path),
                                         (4, transcript_path, s3.fs transcript_path),
                                         (5, translated_path, s4.fs translated_path),
                                         (6, video_path, s5.fs video_path),
                                         (6, dubbed_audio_path, s5.fs dubbed_audio_path)] }
                      | some output_path =>
                          { result := some output_path
                            fs := s6.fs
                            log := pre ++ s1.log ++ s2.log ++ s3.log ++ s4.log ++
                              s5.log ++ s6.log ++
                              [einfo ("Output video saved to: " ++ output_path)]
                            stageResults := [(1, some video_path), (2, some audio_path),
                                             (3, some transcript_path),
                                             (4, some translated_path),
                                             (5, some dubbed_audio_path),
                                             (6, some output_path)]
                            invocations := s1.invocations ++ s2.invocations ++
                              s3.invocations ++ s4.invocations ++ s5.invocations ++
                              s6.invocations
                            handoffs := [(2, video_path, s1.fs video_path),
                                         (3, audio_path, s2.fs audio_path),
                                         (4, transcript_path, s3.fs transcript_path),
                                         (5, translated_path, s4.fs translated_path),
                                         (6, video_path, s5.fs video_path),
                                         (6, dubbed_audio_path, s5.fs dubbed_audio_path)] }

/-- The error detail a failing yt-dlp attempt leaves in the log, as a
function of the engine's outcome: the message of the handler that catches a
raise (a `FileNotFoundError` for a missing binary hits the not-installed
handler — as does the `os.path.getsize` raise on a missing output file), or
the captured stderr for a non-zero exit code.  `none` when the attempt
succeeds. -/
def ytdlp_failure_detail (r : Except (Bool × String × FS) (Nat × String × FS))
    (p : FPath) : Option String :=
  match r with
  | .error (fnf, d, _) =>
      some (if fnf then ytdlpNotInstalledMsg else "Error using yt-dlp: " ++ d)
  | .ok (code, stderr, fs1) =>
      if code ≠ 0 then some ("yt-dlp error: " ++ stderr)
      else if (fs1 p).isNone then some ytdlpNotInstalledMsg
      else none

/-! ## Concrete engine behaviours used in witnesses and counterexamples -/

/-- ffmpeg that succeeds and writes to the last command argument (the output
path in both the extract and the merge command). -/
def ffmpegOk : FfmpegEngine :=
  fun cmd fs => .ok (0, "", fsSet fs (cmd.getLast?.getD "") "OUT")

/-- ffmpeg that exits with code 1 without touching the file system. -/
def ffmpegFail : FfmpegEngine := fun _ fs => .ok (1, "boom", fs)

/-- ffmpeg that exits with code 1 after writing a partial file at the output
path. -/
def ffmpegPartial : FfmpegEngine :=
  fun cmd fs => .ok (1, "boom", fsSet fs (cmd.getLast?.getD "") "PART")

/-- pytube raising a `PytubeError`. -/
def pytubeRaise : PytubeEngine := fun _ _ fs => .error (true, "HTTP Error 410", fs)

/-- pytube that downloads the video. -/
def pytubeOkWrite : PytubeEngine := fun _ p fs => .ok (fsSet fs p "VIDEO")

/-- yt-dlp that exits 0 after writing the video. -/
def ytdlpOk : YtdlpEngine := fun _ p fs => .ok (0, "", fsSet fs p "VIDEO")

/-- yt-dlp that exits 0 but leaves an empty video file behind. -/
def ytdlpEmptyOk : YtdlpEngine := fun _ p fs => .ok (0, "", fsSet fs p "")

/-- yt-dlp raising a generic network exception. -/
def ytdlpRaise : YtdlpEngine := fun _ _ fs => .error (false, "network down", fs)

/-- Whisper returning a transcript. -/
def whisperOk : WhisperEngine := fun _ _ _ => .ok "hello world"

/-- A translation backend that succeeds. -/
def googleOk : TranslateEngine := fun t _ _ => some ("TR:" ++ t)

/-- A plain TTS backend that writes the audio file. -/
def ttsLibOk : TtsLibEngine := fun _ _ o fs => .ok (fsSet fs o "AUDIO")

/-- A plain TTS backend that raises. -/
def ttsLibFail : TtsLibEngine := fun _ _ _ fs => .error ("tts backend down", fs)

/-- A voice-cloning backend that writes the audio file. -/
def cloneOk : CloneEngine := fun _ _ _ o fs => .ok (fsSet fs o "CLONED")

/-- A voice-cloning backend that raises. -/
def cloneFail : CloneEngine := fun _ _ _ _ fs => .error ("xtts crash", fs)

/-- moviepy that writes the merged video. -/
def moviepyOk : MoviepyEngine := fun _ _ o fs => .ok (fsSet fs o "MERGED")

/-- A bundle in which every engine succeeds. -/
def enginesOk : Engines :=
  ⟨pytubeOkWrite, ytdlpOk, ffmpegOk, whisperOk, googleOk, googleOk,
   ttsLibOk, ttsLibOk, ttsLibOk, cloneOk, cloneOk, moviepyOk⟩

/-- Both Acquirer candidates fail. -/
def enginesDownloadDead : Engines :=
  { enginesOk with pytube := pytubeRaise, ytdlp := ytdlpRaise }

/-- pytube fails; yt-dlp succeeds but writes an empty video file. -/
def enginesEmptyVideo : Engines :=
  { enginesOk with pytube := pytubeRaise, ytdlp := ytdlpEmptyOk }

/-- The ffmpeg binary fails on every invocation. -/
def enginesFfmpegDead : Engines := { enginesOk with ffmpeg := ffmpegFail }

/-! ## Basic lemmas -/

theorem fsSet_self (fs : FS) (p : FPath) (c : String) : fsSet fs p c p = some c := by
  simp [fsSet]

theorem fsSet_preserves (fs : FS) (p : FPath) (c : String) :
    Preserves fs (fsSet fs p c) := by
  intro q hq
  by_cases h : q = p <;> simp [fsSet, h, hq]

theorem preserves_refl (fs : FS) : Preserves fs fs := fun _ h => h

theorem preserves_trans {f1 f2 f3 : FS} (h1 : Preserves f1 f2)
    (h2 : Preserves f2 f3) : Preserves f1 f3 := fun q h => h2 q (h1 q h)

theorem fsSet_ne (fs : FS) (p q : FPath) (c : String) (h : q ≠ p) :
    fsSet fs p c q = fs q := by
  simp [fsSet, h]

/-! ## Claim C2: missing or empty inputs -/

/-- Claim C2, counterexample: an existing but **empty** input artifact does
not make the stage return an input-missing failure with zero engine
invocations — `extract_audio` only checks existence, so on an empty video
file the ffmpeg engine is invoked. -/
theorem empty_input_file_still_invokes_engine :
    (fsSet fsEmpty "v.mp4" "") "v.mp4" = some "" ∧
    (extract_audio ffmpegOk (fsSet fsEmpty "v.mp4" "") "v.mp4" "a.wav" 16000 1).invocations
      = ["ffmpeg"] := by
  decide

/-- Claim C2 (amended): for every input-consuming stage role, a **missing**
input artifact makes the stage return a failure with zero engine
invocations; (the existence check does not reject an existing empty file —
see the counterexample). -/
theorem missing_input_returns_failure_without_invocation
    (ffmpeg : FfmpegEngine) (moviepy : MoviepyEngine) (whisper : WhisperEngine)
    (googleT openaiT : TranslateEngine) (bark coqui gtts : TtsLibEngine)
    (yourtts : CloneEngine) (fs : FS) (p a o : FPath)
    (model lang sl tl teng eng : String) (ra : Option FPath)
    (hp : fs p = none) :
    ((extract_audio ffmpeg fs p a 16000 1).result = none ∧
      (extract_audio ffmpeg fs p a 16000 1).invocations = []) ∧
    ((transcribe_audio whisper fs p o model lang).result = none ∧
      (transcribe_audio whisper fs p o model lang).invocations = []) ∧
    ((translate_file googleT openaiT fs p o sl tl teng).result = none ∧
      (translate_file googleT openaiT fs p o sl tl teng).invocations = []) ∧
    ((text_to_speech bark coqui gtts yourtts fs p o lang eng ra).result = none ∧
      (text_to_speech bark coqui gtts yourtts fs p o lang eng ra).invocations = []) ∧
    ((merge_video_audio ffmpeg moviepy fs p a o true).result = none ∧
      (merge_video_audio ffmpeg moviepy fs p a o true).invocations = []) ∧
    ((merge_video_audio ffmpeg moviepy fs a p o true).result = none ∧
      (merge_video_audio ffmpeg moviepy fs a p o true).invocations = []) := by
  refine ⟨?_, ?_, ?_, ?_, ?_, ?_⟩
  · simp [extract_audio, hp]
  · simp [transcribe_audio, hp]
  · simp [translate_file, hp]
  · simp [text_to_speech, hp]
  · simp [merge_video_audio, merge_video_audio_ffmpeg, hp]
  · cases hfa : fs a <;>
      simp [merge_video_audio, merge_video_audio_ffmpeg, hp, hfa]

/-- Witness for the amended claim C2, at a concrete empty file system. -/
theorem missing_input_returns_failure_without_invocation_witness :
    ((extract_audio ffmpegOk fsEmpty "missing.mp4" "a.wav" 16000 1).result = none ∧
      (extract_audio ffmpegOk fsEmpty "missing.mp4" "a.wav" 16000 1).invocations = []) ∧
    ((transcribe_audio whisperOk fsEmpty "missing.mp4" "o.txt" "base" "en").result = none ∧
      (transcribe_audio whisperOk fsEmpty "missing.mp4" "o.txt" "base" "en").invocations = []) ∧
    ((translate_file googleOk googleOk fsEmpty "missing.mp4" "o.txt" "en" "tr" "google").result = none ∧
      (translate_file googleOk googleOk fsEmpty "missing.mp4" "o.txt" "en" "tr" "google").invocations = []) ∧
    ((text_to_speech ttsLibOk ttsLibOk ttsLibOk cloneOk fsEmpty "missing.mp4" "o.txt" "en" "gtts" none).result = none ∧
      (text_to_speech ttsLibOk ttsLibOk ttsLibOk cloneOk fsEmpty "missing.mp4" "o.txt" "en" "gtts" none).invocations = []) ∧
    ((merge_video_audio ffmpegOk moviepyOk fsEmpty "missing.mp4" "a.wav" "o.txt" true).result = none ∧
      (merge_video_audio ffmpegOk moviepyOk fsEmpty "missing.mp4" "a.wav" "o.txt" true).invocations = []) ∧
    ((merge_video_audio ffmpegOk moviepyOk fsEmpty "a.wav" "missing.mp4" "o.txt" true).result = none ∧
      (merge_video_audio ffmpegOk moviepyOk fsEmpty "a.wav" "missing.mp4" "o.txt" true).invocations = []) :=
  missing_input_returns_failure_without_invocation ffmpegOk moviepyOk whisperOk
    googleOk googleOk ttsLibOk ttsLibOk ttsLibOk cloneOk fsEmpty
    "missing.mp4" "a.wav" "o.txt" "base" "en" "en" "tr" "google" "gtts" none rfl

/-! ## Claim C3: second-candidate fallback for the Muxer -/

/-- Claim C3 (code bug): when the Muxer's first candidate (ffmpeg) fails and
the second (moviepy) would succeed, `merge_video_audio` returns a failure
without ever invoking moviepy — the `except` fallback in the source is
unreachable because `merge_video_audio_ffmpeg` catches all of its own
exceptions and returns `None` instead of raising. -/
theorem muxer_fallback_engine_never_invoked :
    (merge_video_audio ffmpegFail moviepyOk
      (fsSet (fsSet fsEmpty "v.mp4" "V") "a.wav" "A")
      "v.mp4" "a.wav" "out.mp4" true).result = none ∧
    (merge_video_audio ffmpegFail moviepyOk
      (fsSet (fsSet fsEmpty "v.mp4" "V") "a.wav" "A")
      "v.mp4" "a.wav" "out.mp4" true).invocations = ["ffmpeg"] := by
  decide

/-! ## Claim C6: partial output left behind on failure -/

/-- Claim C6, counterexample: an ffmpeg attempt that exits non-zero after
writing a partial file at the target path makes `extract_audio` return a
failure while the partial file is still there — no cleanup happens. -/
theorem failed_extract_leaves_partial_output :
    (extract_audio ffmpegPartial (fsSet fsEmpty "v.mp4" "V")
      "v.mp4" "a.wav" 16000 1).result = none ∧
    (extract_audio ffmpegPartial (fsSet fsEmpty "v.mp4" "V")
      "v.mp4" "a.wav" 16000 1).fs "a.wav" = some "PART" := by
  decide

/-- Claim C6 (amended): on a failed engine attempt the stage adapters return
a failure but leave the file system exactly as the failed external attempt
left it — there is no temporary-location-and-move protocol and no cleanup of
the target path. -/
theorem failed_engine_attempt_performs_no_cleanup
    (ffmpeg : FfmpegEngine) (gtts : TtsLibEngine) (fs : FS) (v a au o op : FPath)
    (text lang d stderr1 stderr2 : String) (c1 c2 : Nat) (g1 g2 g3 : FS)
    (hv : (fs v).isSome) (hau : (fs au).isSome)
    (hx : ffmpeg (extract_cmd v a 16000 1) fs = .ok (c1, stderr1, g1))
    (hc1 : c1 ≠ 0)
    (hm : ffmpeg (merge_cmd v au o) fs = .ok (c2, stderr2, g2))
    (hc2 : c2 ≠ 0)
    (hg : gtts text (resolve_lang gtts_lang_mapping lang).1 op fs = .error (d, g3)) :
    ((extract_audio ffmpeg fs v a 16000 1).result = none ∧
      (extract_audio ffmpeg fs v a 16000 1).fs = g1) ∧
    ((merge_video_audio_ffmpeg ffmpeg fs v au o).result = none ∧
      (merge_video_audio_ffmpeg ffmpeg fs v au o).fs = g2) ∧
    ((generate_speech_gtts gtts fs text op lang).result = none ∧
      (generate_speech_gtts gtts fs text op lang).fs = g3) := by
  obtain ⟨cv, hcv⟩ := Option.isSome_iff_exists.mp hv
  obtain ⟨ca, hca⟩ := Option.isSome_iff_exists.mp hau
  refine ⟨?_, ?_, ?_⟩
  · simp [extract_audio, hcv, hx, hc1]
  · simp [merge_video_audio_ffmpeg, hcv, hca, hm, hc2]
  · simp [generate_speech_gtts, hg]

/-- Witness for the amended claim C6, at concrete failing engines. -/
theorem failed_engine_attempt_performs_no_cleanup_witness :
    ((extract_audio ffmpegPartial (fsSet (fsSet fsEmpty "v.mp4" "V") "dub.wav" "A")
        "v.mp4" "a.wav" 16000 1).result = none ∧
      (extract_audio ffmpegPartial (fsSet (fsSet fsEmpty "v.mp4" "V") "dub.wav" "A")
        "v.mp4" "a.wav" 16000 1).fs =
        fsSet (fsSet (fsSet fsEmpty "v.mp4" "V") "dub.wav" "A") "a.wav" "PART") ∧
    ((merge_video_audio_ffmpeg ffmpegPartial (fsSet (fsSet fsEmpty "v.mp4" "V") "dub.wav" "A")
        "v.mp4" "dub.wav" "out.mp4").result = none ∧
      (merge_video_audio_ffmpeg ffmpegPartial (fsSet (fsSet fsEmpty "v.mp4" "V") "dub.wav" "A")
        "v.mp4" "dub.wav" "out.mp4").fs =
        fsSet (fsSet (fsSet fsEmpty "v.mp4" "V") "dub.wav" "A") "out.mp4" "PART") ∧
    ((generate_speech_gtts ttsLibFail (fsSet (fsSet fsEmpty "v.mp4" "V") "dub.wav" "A")
        "hello" "tts.mp3" "tr").result = none ∧
      (generate_speech_gtts ttsLibFail (fsSet (fsSet fsEmpty "v.mp4" "V") "dub.wav" "A")
        "hello" "tts.mp3" "tr").fs =
        fsSet (fsSet fsEmpty "v.mp4" "V") "dub.wav" "A") :=
  failed_engine_attempt_performs_no_cleanup ffmpegPartial ttsLibFail
    (fsSet (fsSet fsEmpty "v.mp4" "V") "dub.wav" "A")
    "v.mp4" "a.wav" "dub.wav" "out.mp4" "tts.mp3"
    "hello" "tr" "tts backend down" "boom" "boom" 1 1
    (fsSet (fsSet (fsSet fsEmpty "v.mp4" "V") "dub.wav" "A") "a.wav" "PART")
    (fsSet (fsSet (fsSet fsEmpty "v.mp4" "V") "dub.wav" "A") "out.mp4" "PART")
    (fsSet (fsSet fsEmpty "v.mp4" "V") "dub.wav" "A")
    (by decide) (by decide) rfl (by decide) rfl (by decide) rfl

/-! ## Claim C8: transcoder command lines and exit-code contract -/

/-- Claim C8 (confirmed): the Extractor fixes the sample rate to 16000 Hz
and the channel count to 1 on the ffmpeg command line, the Muxer maps the
first video stream of the first input and the first audio stream of the
second input, and for both roles the attempt succeeds exactly when ffmpeg
runs, exits with code 0, and the output file exists afterwards. -/
theorem transcoder_commands_and_exit_code_contract
    (ffmpeg : FfmpegEngine) (fs : FS) (v a au o : FPath)
    (hv : (fs v).isSome) (hau : (fs au).isSome) :
    extract_cmd v a 16000 1 =
      ["ffmpeg", "-y", "-i", v, "-vn", "-acodec", "pcm_s16le",
       "-ar", "16000", "-ac", "1", a] ∧
    merge_cmd v au o =
      ["ffmpeg", "-y", "-i", v, "-i", au, "-map", "0:v:0", "-map", "1:a:0",
       "-c:v", "copy", "-c:a", "aac", "-b:a", "192k", "-shortest", o] ∧
    ((extract_audio ffmpeg fs v a 16000 1).result.isSome ↔
      ∃ stderr fs1, ffmpeg (extract_cmd v a 16000 1) fs = .ok (0, stderr, fs1) ∧
        (fs1 a).isSome) ∧
    ((merge_video_audio_ffmpeg ffmpeg fs v au o).result.isSome ↔
      ∃ stderr fs1, ffmpeg (merge_cmd v au o) fs = .ok (0, stderr, fs1) ∧
        (fs1 o).isSome) := by
  obtain ⟨cv, hcv⟩ := Option.isSome_iff_exists.mp hv
  obtain ⟨ca, hca⟩ := Option.isSome_iff_exists.mp hau
  refine ⟨rfl, rfl, ?_, ?_⟩
  · cases hf : ffmpeg (extract_cmd v a 16000 1) fs with
    | error e =>
        obtain ⟨fnf, d, g⟩ := e
        simp [extract_audio, hcv, hf]
    | ok r =>
        obtain ⟨c, s, g⟩ := r
        by_cases hc : c = 0
        · subst hc
          cases hga : g a with
          | none => simp [extract_audio, hcv, hf, hga]
          | some w =>
              simp [extract_audio, hcv, hf, hga]
              exact ⟨s, g, ⟨rfl, rfl⟩, by simp [hga]⟩
        · simp [extract_audio, hcv, hf, hc]
  · cases hf : ffmpeg (merge_cmd v au o) fs with
    | error e =>
        obtain ⟨fnf, d, g⟩ := e
        simp [merge_video_audio_ffmpeg, hcv, hca, hf]
    | ok r =>
        obtain ⟨c, s, g⟩ := r
        by_cases hc : c = 0
        · subst hc
          cases hgo : g o with
          | none => simp [merge_video_audio_ffmpeg, hcv, hca, hf, hgo]
          | some w =>
              simp [merge_video_audio_ffmpeg, hcv, hca, hf, hgo]
              exact ⟨s, g, ⟨rfl, rfl⟩, by simp [hgo]⟩
        · simp [merge_video_audio_ffmpeg, hcv, hca, hf, hc]

/-- Witness for claim C8, at a concrete succeeding ffmpeg. -/
theorem transcoder_commands_and_exit_code_contract_witness :
    extract_cmd "v.mp4" "a.wav" 16000 1 =
      ["ffmpeg", "-y", "-i", "v.mp4", "-vn", "-acodec", "pcm_s16le",
       "-ar", "16000", "-ac", "1", "a.wav"] ∧
    merge_cmd "v.mp4" "dub.wav" "out.mp4" =
      ["ffmpeg", "-y", "-i", "v.mp4", "-i", "dub.wav", "-map", "0:v:0",
       "-map", "1:a:0", "-c:v", "copy", "-c:a", "aac", "-b:a", "192k",
       "-shortest", "out.mp4"] ∧
    ((extract_audio ffmpegOk (fsSet (fsSet fsEmpty "v.mp4" "V") "dub.wav" "A")
        "v.mp4" "a.wav" 16000 1).result.isSome ↔
      ∃ stderr fs1, ffmpegOk (extract_cmd "v.mp4" "a.wav" 16000 1)
          (fsSet (fsSet fsEmpty "v.mp4" "V") "dub.wav" "A") = .ok (0, stderr, fs1) ∧
        (fs1 "a.wav").isSome) ∧
    ((merge_video_audio_ffmpeg ffmpegOk (fsSet (fsSet fsEmpty "v.mp4" "V") "dub.wav" "A")
        "v.mp4" "dub.wav" "out.mp4").result.isSome ↔
      ∃ stderr fs1, ffmpegOk (merge_cmd "v.mp4" "dub.wav" "out.mp4")
          (fsSet (fsSet fsEmpty "v.mp4" "V") "dub.wav" "A") = .ok (0, stderr, fs1) ∧
        (fs1 "out.mp4").isSome) :=
  transcoder_commands_and_exit_code_contract ffmpegOk
    (fsSet (fsSet fsEmpty "v.mp4" "V") "dub.wav" "A")
    "v.mp4" "a.wav" "dub.wav" "out.mp4" (by decide) (by decide)

/-! ## Claim C9: Muxer re-runs overwrite the output -/

/-- Claim C9 (confirmed): under the documented contract of the external
transcoder's `-y` flag — the output file is written by replacement, as a
deterministic function of the input files — re-running the Muxer stage on
the same (video, audio) pair with the same output path succeeds again and
leaves the output file with exactly the same content (hence the same size)
as the first run: the second run overwrites, never appends. -/
theorem muxer_rerun_overwrites_output
    (ffmpeg : FfmpegEngine) (moviepy : MoviepyEngine) (fs : FS) (v a o : FPath)
    (f : Option String → Option String → String) (stderr : String)
    (hov : o ≠ v) (hoa : o ≠ a)
    (hff : ∀ g : FS, ffmpeg (merge_cmd v a o) g =
      .ok (0, stderr, fsSet g o (f (g v) (g a))))
    (hv : (fs v).isSome) (ha : (fs a).isSome) :
    (merge_video_audio ffmpeg moviepy fs v a o true).result = some o ∧
    (merge_video_audio ffmpeg moviepy
      ((merge_video_audio ffmpeg moviepy fs v a o true).fs) v a o true).result = some o ∧
    (merge_video_audio ffmpeg moviepy
      ((merge_video_audio ffmpeg moviepy fs v a o true).fs) v a o true).fs o =
      (merge_video_audio ffmpeg moviepy fs v a o true).fs o := by
  obtain ⟨cv, hcv⟩ := Option.isSome_iff_exists.mp hv
  obtain ⟨ca, hca⟩ := Option.isSome_iff_exists.mp ha
  have hv1 : fsSet fs o (f (some cv) (some ca)) v = some cv := by
    rw [fsSet_ne _ _ _ _ (Ne.symm hov), hcv]
  have ha1 : fsSet fs o (f (some cv) (some ca)) a = some ca := by
    rw [fsSet_ne _ _ _ _ (Ne.symm hoa), hca]
  have e1 : (merge_video_audio ffmpeg moviepy fs v a o true).fs =
      fsSet fs o (f (some cv) (some ca)) := by
    simp [merge_video_audio, merge_video_audio_ffmpeg, hcv, hca, hff fs, fsSet_self]
  refine ⟨?_, ?_, ?_⟩
  · simp [merge_video_audio, merge_video_audio_ffmpeg, hcv, hca, hff fs, fsSet_self]
  · rw [e1]
    simp [merge_video_audio, merge_video_audio_ffmpeg, hv1, ha1, hcv, hca,
      hff (fsSet fs o (f (some cv) (some ca))), fsSet_self]
  · rw [e1]
    simp [merge_video_audio, merge_video_audio_ffmpeg, hv1, ha1, hcv, hca,
      hff (fsSet fs o (f (some cv) (some ca))), fsSet_self]

/-- Witness for claim C9, with a concrete deterministic transcoder. -/
theorem muxer_rerun_overwrites_output_witness :
    (merge_video_audio ffmpegOk moviepyOk (fsSet (fsSet fsEmpty "v.mp4" "V") "a.wav" "A")
      "v.mp4" "a.wav" "out.mp4" true).result = some "out.mp4" ∧
    (merge_video_audio ffmpegOk moviepyOk
      ((merge_video_audio ffmpegOk moviepyOk (fsSet (fsSet fsEmpty "v.mp4" "V") "a.wav" "A")
        "v.mp4" "a.wav" "out.mp4" true).fs) "v.mp4" "a.wav" "out.mp4" true).result = some "out.mp4" ∧
    (merge_video_audio ffmpegOk moviepyOk
      ((merge_video_audio ffmpegOk moviepyOk (fsSet (fsSet fsEmpty "v.mp4" "V") "a.wav" "A")
        "v.mp4" "a.wav" "out.mp4" true).fs) "v.mp4" "a.wav" "out.mp4" true).fs "out.mp4" =
      (merge_video_audio ffmpegOk moviepyOk (fsSet (fsSet fsEmpty "v.mp4" "V") "a.wav" "A")
        "v.mp4" "a.wav" "out.mp4" true).fs "out.mp4" :=
  muxer_rerun_overwrites_output ffmpegOk moviepyOk
    (fsSet (fsSet fsEmpty "v.mp4" "V") "a.wav" "A") "v.mp4" "a.wav" "out.mp4"
    (fun _ _ => "OUT") "" (by decide) (by decide) (fun g => rfl)
    (by decide) (by decide)

/-! ## Claim C10: unknown Synthesizer engine names -/

/-- Claim C10 (confirmed): for any engine name whose lower-cased form is not
one of `bark`, `coqui`, `gtts`, `voice_clone`, the Synthesizer dispatch does
not fail on the unknown name: it produces exactly the Google TTS engine's
result (same return value, file system and engine invocations). -/
theorem unknown_tts_engine_falls_back_to_gtts
    (bark coqui gtts : TtsLibEngine) (yourtts : CloneEngine) (fs : FS)
    (inp outp : FPath) (lang eng text : String) (ra : Option FPath)
    (hin : fs inp = some text)
    (h : strLower eng ∉ (["bark", "coqui", "gtts", "voice_clone"] : List String)) :
    (text_to_speech bark coqui gtts yourtts fs inp outp lang eng ra).result =
      (generate_speech_gtts gtts fs text outp lang).result ∧
    (text_to_speech bark coqui gtts yourtts fs inp outp lang eng ra).fs =
      (generate_speech_gtts gtts fs text outp lang).fs ∧
    (text_to_speech bark coqui gtts yourtts fs inp outp lang eng ra).invocations =
      (generate_speech_gtts gtts fs text outp lang).invocations := by
  simp only [List.mem_cons, List.not_mem_nil, or_false, not_or] at h
  obtain ⟨h1, h2, h3, h4⟩ := h
  simp [text_to_speech, hin, h1, h2, h3, h4, withLog]

/-- Witness for claim C10, at the unknown engine name `espeak`. -/
theorem unknown_tts_engine_falls_back_to_gtts_witness :
    (text_to_speech ttsLibOk ttsLibOk ttsLibOk cloneOk
      (fsSet fsEmpty "t.txt" "hello") "t.txt" "dub.wav" "tr" "espeak" none).result =
      (generate_speech_gtts ttsLibOk (fsSet fsEmpty "t.txt" "hello")
        "hello" "dub.wav" "tr").result ∧
    (text_to_speech ttsLibOk ttsLibOk ttsLibOk cloneOk
      (fsSet fsEmpty "t.txt" "hello") "t.txt" "dub.wav" "tr" "espeak" none).fs =
      (generate_speech_gtts ttsLibOk (fsSet fsEmpty "t.txt" "hello")
        "hello" "dub.wav" "tr").fs ∧
    (text_to_speech ttsLibOk ttsLibOk ttsLibOk cloneOk
      (fsSet fsEmpty "t.txt" "hello") "t.txt" "dub.wav" "tr" "espeak" none).invocations =
      (generate_speech_gtts ttsLibOk (fsSet fsEmpty "t.txt" "hello")
        "hello" "dub.wav" "tr").invocations :=
  unknown_tts_engine_falls_back_to_gtts ttsLibOk ttsLibOk ttsLibOk cloneOk
    (fsSet fsEmpty "t.txt" "hello") "t.txt" "dub.wav" "tr" "espeak" "hello" none
    rfl (by decide)

/-! ## Claim C5: Synthesizer language-code remapping -/

/-- The engine invocation label and warning count of the XTTS Synthesizer
variant when the reference sample exists, for any engine behaviour. -/
theorem clone_voice_and_speak_invocations (xtts : CloneEngine) (fs : FS)
    (text : String) (ref : FPath) (target : String) (out : FPath)
    (href : (fs ref).isSome) :
    (clone_voice_and_speak xtts fs text ref target out).invocations =
      ["xtts:" ++ xtts_lang target] ∧
    warningCount (clone_voice_and_speak xtts fs text ref target out).log = 0 := by
  obtain ⟨cr, hcr⟩ := Option.isSome_iff_exists.mp href
  cases hx : xtts text (xtts_lang target) ref out fs with
  | error e =>
      obtain ⟨d, fs1⟩ := e
      simp [clone_voice_and_speak, hcr, hx, warningCount, einfo, eerror]
  | ok fs1 =>
      cases hfo : fs1 out <;>
        simp [clone_voice_and_speak, hcr, hx, hfo, warningCount, einfo, eerror]

/-- Claim C5, counterexample: the Synthesizer variant whose table maps `zh`
to `zh-cn` (the XTTS voice cloner) does fall back to `en` on the unmapped
code `xx`, but logs **no** warning while doing so. -/
theorem xtts_unmapped_code_logs_no_warning :
    xtts_lang_mapping "zh" = some "zh-cn" ∧
    xtts_lang_mapping "xx" = none ∧
    (clone_voice_and_speak cloneOk (fsSet fsEmpty "ref.wav" "R")
      "hi" "ref.wav" "xx" "out.wav").invocations = ["xtts:en"] ∧
    warningCount (clone_voice_and_speak cloneOk (fsSet fsEmpty "ref.wav" "R")
      "hi" "ref.wav" "xx" "out.wav").log = 0 := by
  decide

/-- Claim C5 (amended): the XTTS Synthesizer variant passes exactly `zh-cn`
to the underlying voice model for requested code `zh`; for every code absent
from its table it falls back to the default `en` and never raises, but it
logs the chosen code at info level only — no warning is emitted. -/
theorem xtts_lang_remapping (xtts : CloneEngine) (fs : FS) (text : String)
    (ref out : FPath) (code : String) (href : (fs ref).isSome)
    (hcode : xtts_lang_mapping (strLower code) = none) :
    (clone_voice_and_speak xtts fs text ref "zh" out).invocations = ["xtts:zh-cn"] ∧
    (clone_voice_and_speak xtts fs text ref code out).invocations = ["xtts:en"] ∧
    warningCount (clone_voice_and_speak xtts fs text ref code out).log = 0 := by
  have h1 := clone_voice_and_speak_invocations xtts fs text ref "zh" out href
  have h2 := clone_voice_and_speak_invocations xtts fs text ref code out href
  have he : xtts_lang code = "en" := by simp [xtts_lang, hcode]
  refine ⟨?_, ?_, h2.2⟩
  · rw [h1.1]
    rfl
  · rw [h2.1, he]
    rfl

/-- Witness for the amended claim C5, at the unmapped code `xx`. -/
theorem xtts_lang_remapping_witness :
    (clone_voice_and_speak cloneFail (fsSet fsEmpty "spk.wav" "R")
      "hey" "spk.wav" "zh" "dub.wav").invocations = ["xtts:zh-cn"] ∧
    (clone_voice_and_speak cloneFail (fsSet fsEmpty "spk.wav" "R")
      "hey" "spk.wav" "xx" "dub.wav").invocations = ["xtts:en"] ∧
    warningCount (clone_voice_and_speak cloneFail (fsSet fsEmpty "spk.wav" "R")
      "hey" "spk.wav" "xx" "dub.wav").log = 0 :=
  xtts_lang_remapping cloneFail (fsSet fsEmpty "spk.wav" "R") "hey"
    "spk.wav" "dub.wav" "xx" (by decide) rfl

/-! ## Stage success lemmas

For each stage adapter: when the adapter reports success, the returned path
is the stage's target output path, the file exists in the file system the
adapter leaves behind, and (given that engines only add files) every
previously existing file still exists. -/

theorem download_success_props (pytube : PytubeEngine) (ytdlp : YtdlpEngine)
    (fs : FS) (url : String) (op p : FPath)
    (hpy : ∀ u o g g1, pytube u o g = .ok g1 → Preserves g g1)
    (hpe : ∀ u o g b d g1, pytube u o g = .error (b, d, g1) → Preserves g g1)
    (hyt : ∀ u o g c s g1, ytdlp u o g = .ok (c, s, g1) → Preserves g g1)
    (hres : (download_youtube_video pytube ytdlp fs url op).result = some p) :
    p = op ∧ ((download_youtube_video pytube ytdlp fs url op).fs p).isSome ∧
      Preserves fs (download_youtube_video pytube ytdlp fs url op).fs := by
  cases hpyr : pytube url op fs with
  | ok g1 =>
      cases hg1 : g1 op with
      | some c =>
          simp only [download_youtube_video, hpyr, hg1] at hres ⊢
          obtain rfl := Option.some.inj hres
          exact ⟨rfl, by simp [hg1], hpy url op fs g1 hpyr⟩
      | none =>
          simp only [download_youtube_video, hpyr, hg1, withLog, withInv] at hres ⊢
          cases hytr : ytdlp url op g1 with
          | error e =>
              obtain ⟨fnf, d, g2⟩ := e
              simp [download_video_with_yt_dlp, hytr] at hres
          | ok r =>
              obtain ⟨c, s, g2⟩ := r
              by_cases hc : c = 0
              · subst hc
                cases hg2 : g2 op with
                | none => simp [download_video_with_yt_dlp, hytr, hg2] at hres
                | some w =>
                    simp only [download_video_with_yt_dlp, hytr, hg2] at hres ⊢
                    simp at hres
                    obtain rfl := hres
                    refine ⟨rfl, by simp [hg2], ?_⟩
                    exact preserves_trans (hpy url op fs g1 hpyr)
                      (hyt url op g1 0 s g2 hytr)
              · simp [download_video_with_yt_dlp, hytr, hc] at hres
  | error e =>
      obtain ⟨b, d, g1⟩ := e
      simp only [download_youtube_video, hpyr, withLog, withInv] at hres ⊢
      cases hytr : ytdlp url op g1 with
      | error e2 =>
          obtain ⟨fnf, d2, g2⟩ := e2
          simp [download_video_with_yt_dlp, hytr] at hres
      | ok r =>
          obtain ⟨c, s, g2⟩ := r
          by_cases hc : c = 0
          · subst hc
            cases hg2 : g2 op with
            | none => simp [download_video_with_yt_dlp, hytr, hg2] at hres
            | some w =>
                simp only [download_video_with_yt_dlp, hytr, hg2] at hres ⊢
                simp at hres
                obtain rfl := hres
                refine ⟨rfl, by simp [hg2], ?_⟩
                exact preserves_trans (hpe url op fs b d g1 hpyr)
                  (hyt url op g1 0 s g2 hytr)
          · simp [download_video_with_yt_dlp, hytr, hc] at hres

theorem extract_success_props (ffmpeg : FfmpegEngine) (fs : FS)
    (v a : FPath) (sr ch : Nat) (p : FPath)
    (hff : ∀ cmd g c s g1, ffmpeg cmd g = .ok (c, s, g1) → Preserves g g1)
    (hres : (extract_audio ffmpeg fs v a sr ch).result = some p) :
    p = a ∧ ((extract_audio ffmpeg fs v a sr ch).fs p).isSome ∧
      Preserves fs (extract_audio ffmpeg fs v a sr ch).fs := by
  by_cases hv : (fs v).isNone
  · simp [extract_audio, hv] at hres
  · cases hfr : ffmpeg (extract_cmd v a sr ch) fs with
    | error e =>
        obtain ⟨fnf, d, g1⟩ := e
        simp [extract_audio, hv, hfr] at hres
    | ok r =>
        obtain ⟨c, s, g1⟩ := r
        by_cases hc : c = 0
        · subst hc
          cases hg1 : g1 a with
          | none => simp [extract_audio, hv, hfr, hg1] at hres
          | some w =>
              simp only [extract_audio, hv, Bool.false_eq_true, if_false, hfr,
                hg1] at hres ⊢
              simp at hres
              obtain rfl := hres
              exact ⟨rfl, by simp [hg1], hff _ fs 0 s g1 hfr⟩
        · simp [extract_audio, hv, hfr, hc] at hres

theorem transcribe_success_props (whisper : WhisperEngine) (fs : FS)
    (a o : FPath) (model lang : String) (p : FPath)
    (hres : (transcribe_audio whisper fs a o model lang).result = some p) :
    p = o ∧ ((transcribe_audio whisper fs a o model lang).fs p).isSome ∧
      Preserves fs (transcribe_audio whisper fs a o model lang).fs := by
  by_cases ha : (fs a).isNone
  · simp [transcribe_audio, ha] at hres
  · cases hw : whisper a lang fs with
    | error e =>
        obtain ⟨d, g1⟩ := e
        simp [transcribe_audio, ha, hw] at hres
    | ok t =>
        simp only [transcribe_audio, ha, Bool.false_eq_true, if_false, hw] at hres ⊢
        simp at hres
        obtain rfl := hres
        exact ⟨rfl, by simp [fsSet_self], fsSet_preserves fs o t⟩

theorem translate_success_props (googleT openaiT : TranslateEngine) (fs : FS)
    (i o : FPath) (sl tl eng : String) (p : FPath)
    (hres : (translate_file googleT openaiT fs i o sl tl eng).result = some p) :
    p = o ∧ ((translate_file googleT openaiT fs i o sl tl eng).fs p).isSome ∧
      Preserves fs (translate_file googleT openaiT fs i o sl tl eng).fs := by
  by_cases hi : (fs i).isNone
  · simp [translate_file, hi] at hres
  · by_cases hg : strLower eng = "google"
    · cases ht : googleT ((fs i).getD "") sl tl with
      | none => simp [translate_file, hi, hg, ht] at hres
      | some tr =>
          simp only [translate_file, hi, Bool.false_eq_true, if_false, hg,
            if_true, ht] at hres ⊢
          simp at hres
          obtain rfl := hres
          exact ⟨rfl, by simp [fsSet_self], fsSet_preserves fs o tr⟩
    · by_cases ho : strLower eng = "openai"
      · cases ht : openaiT ((fs i).getD "") sl tl with
        | none => simp [translate_file, hi, hg, ho, ht] at hres
        | some tr =>
            simp only [translate_file, hi, Bool.false_eq_true, if_false, hg,
              ho, if_true, ht] at hres ⊢
            simp at hres
            obtain rfl := hres
            exact ⟨rfl, by simp [fsSet_self], fsSet_preserves fs o tr⟩
      · simp [translate_file, hi, hg, ho] at hres

theorem generate_gtts_success_props (gtts : TtsLibEngine) (fs : FS)
    (text : String) (o : FPath) (lang : String) (p : FPath)
    (hgt : ∀ t l q g g1, gtts t l q g = .ok g1 → Preserves g g1)
    (hres : (generate_speech_gtts gtts fs text o lang).result = some p) :
    p = o ∧ ((generate_speech_gtts gtts fs text o lang).fs p).isSome ∧
      Preserves fs (generate_speech_gtts gtts fs text o lang).fs := by
  cases hg : gtts text (resolve_lang gtts_lang_mapping lang).1 o fs with
  | error e =>
      obtain ⟨d, g1⟩ := e
      simp [generate_speech_gtts, hg] at hres
  | ok g1 =>
      cases hg1 : g1 o with
      | none => simp [generate_speech_gtts, hg, hg1] at hres
      | some w =>
          simp only [generate_speech_gtts, hg, hg1] at hres ⊢
          obtain rfl := Option.some.inj hres
          exact ⟨rfl, by simp [hg1], hgt _ _ _ fs g1 hg⟩

theorem generate_bark_success_props (bark : TtsLibEngine) (fs : FS)
    (text : String) (o : FPath) (lang : String) (p : FPath)
    (hba : ∀ t l q g g1, bark t l q g = .ok g1 → Preserves g g1)
    (hres : (generate_speech_bark bark fs text o lang).result = some p) :
    p = o ∧ ((generate_speech_bark bark fs text o lang).fs p).isSome ∧
      Preserves fs (generate_speech_bark bark fs text o lang).fs := by
  cases hg : bark text lang o fs with
  | error e =>
      obtain ⟨d, g1⟩ := e
      simp [generate_speech_bark, hg] at hres
  | ok g1 =>
      cases hg1 : g1 o with
      | none => simp [generate_speech_bark, hg, hg1] at hres
      | some w =>
          simp only [generate_speech_bark, hg, hg1] at hres ⊢
          obtain rfl := Option.some.inj hres
          exact ⟨rfl, by simp [hg1], hba _ _ _ fs g1 hg⟩

theorem generate_coqui_success_props (coqui : TtsLibEngine) (fs : FS)
    (text : String) (o : FPath) (lang : String) (p : FPath)
    (hco : ∀ t l q g g1, coqui t l q g = .ok g1 → Preserves g g1)
    (hres : (generate_speech_coqui coqui fs text o lang).result = some p) :
    p = o ∧ ((generate_speech_coqui coqui fs text o lang).fs p).isSome ∧
      Preserves fs (generate_speech_coqui coqui fs text o lang).fs := by
  cases hg : coqui text lang o fs with
  | error e =>
      obtain ⟨d, g1⟩ := e
      simp [generate_speech_coqui, hg] at hres
  | ok g1 =>
      cases hg1 : g1 o with
      | none => simp [generate_speech_coqui, hg, hg1] at hres
      | some w =>
          simp only [generate_speech_coqui, hg, hg1] at hres ⊢
          obtain rfl := Option.some.inj hres
          exact ⟨rfl, by simp [hg1], hco _ _ _ fs g1 hg⟩

theorem generate_voice_clone_success_props (yourtts : CloneEngine) (fs : FS)
    (text : String) (o r : FPath) (lang : String) (p : FPath)
    (hyo : ∀ t l q q2 g g1, yourtts t l q q2 g = .ok g1 → Preserves g g1)
    (hres : (generate_speech_voice_clone yourtts fs text o r lang).result = some p) :
    p = o ∧ ((generate_speech_voice_clone yourtts fs text o r lang).fs p).isSome ∧
      Preserves fs (generate_speech_voice_clone yourtts fs text o r lang).fs := by
  by_cases hr : (fs r).isNone
  · simp [generate_speech_voice_clone, hr] at hres
  · cases hg : yourtts text (resolve_lang yourtts_lang_mapping lang).1 r o fs with
    | error e =>
        obtain ⟨d, g1⟩ := e
        simp [generate_speech_voice_clone, hr, hg] at hres
    | ok g1 =>
        cases hg1 : g1 o with
        | none => simp [generate_speech_voice_clone, hr, hg, hg1] at hres
        | some w =>
            simp only [generate_speech_voice_clone, hr, Bool.false_eq_true,
              if_false, hg, hg1] at hres ⊢
            obtain rfl := Option.some.inj hres
            exact ⟨rfl, by simp [hg1], hyo _ _ _ _ fs g1 hg⟩

theorem text_to_speech_success_props (bark coqui gtts : TtsLibEngine)
    (yourtts : CloneEngine) (fs : FS) (i o : FPath) (lang eng : String)
    (ra : Option FPath) (p : FPath)
    (hba : ∀ t l q g g1, bark t l q g = .ok g1 → Preserves g g1)
    (hco : ∀ t l q g g1, coqui t l q g = .ok g1 → Preserves g g1)
    (hgt : ∀ t l q g g1, gtts t l q g = .ok g1 → Preserves g g1)
    (hyo : ∀ t l q q2 g g1, yourtts t l q q2 g = .ok g1 → Preserves g g1)
    (hres : (text_to_speech bark coqui gtts yourtts fs i o lang eng ra).result = some p) :
    p = o ∧ ((text_to_speech bark coqui gtts yourtts fs i o lang eng ra).fs p).isSome ∧
      Preserves fs (text_to_speech bark coqui gtts yourtts fs i o lang eng ra).fs := by
  by_cases hi : (fs i).isNone
  · simp [text_to_speech, hi] at hres
  · by_cases h1 : strLower eng = "bark"
    · simp only [text_to_speech, hi, Bool.false_eq_true, if_false, h1, if_true,
        withLog] at hres ⊢
      exact generate_bark_success_props bark fs _ o lang p hba hres
    · by_cases h2 : strLower eng = "coqui"
      · simp only [text_to_speech, hi, Bool.false_eq_true, if_false, h1, h2,
          if_true, withLog] at hres ⊢
        exact generate_coqui_success_props coqui fs _ o lang p hco hres
      · by_cases h3 : strLower eng = "gtts"
        · simp only [text_to_speech, hi, Bool.false_eq_true, if_false, h1, h2,
            h3, if_true, withLog] at hres ⊢
          exact generate_gtts_success_props gtts fs _ o lang p hgt hres
        · by_cases h4 : strLower eng = "voice_clone"
          · cases hra : ra with
            | none =>
                simp only [text_to_speech, hi, Bool.false_eq_true, if_false,
                  if_neg h1, if_neg h2, if_neg h3, if_pos h4, hra,
                  withLog] at hres ⊢
                exact generate_gtts_success_props gtts fs _ o lang p hgt hres
            | some r =>
                by_cases hr : (fs r).isSome
                · simp only [text_to_speech, hi, Bool.false_eq_true, if_false,
                    if_neg h1, if_neg h2, if_neg h3, if_pos h4, hra, hr, if_true,
                    withLog] at hres ⊢
                  exact generate_voice_clone_success_props yourtts fs _ o r lang p hyo hres
                · simp only [text_to_speech, hi, Bool.false_eq_true, if_false,
                    if_neg h1, if_neg h2, if_neg h3, if_pos h4, hra, hr,
                    withLog] at hres ⊢
                  exact generate_gtts_success_props gtts fs _ o lang p hgt hres
          · simp only [text_to_speech, hi, Bool.false_eq_true, if_false,
              if_neg h1, if_neg h2, if_neg h3, if_neg h4, withLog] at hres ⊢
            exact generate_gtts_success_props gtts fs _ o lang p hgt hres

theorem clone_voice_fallback_success_props (gtts : TtsLibEngine) (fs : FS)
    (text lang : String) (o : FPath) (p : FPath)
    (hgt : ∀ t l q g g1, gtts t l q g = .ok g1 → Preserves g g1)
    (hres : (clone_voice_fallback gtts fs text lang o).result = some p) :
    p = o ∧ ((clone_voice_fallback gtts fs text lang o).fs p).isSome ∧
      Preserves fs (clone_voice_fallback gtts fs text lang o).fs := by
  cases hg : gtts text ((fb_gtts_lang_mapping (strLower lang)).getD "en") o fs with
  | error e =>
      obtain ⟨d, g1⟩ := e
      simp [clone_voice_fallback, hg] at hres
  | ok g1 =>
      cases hg1 : g1 o with
      | none => simp [clone_voice_fallback, hg, hg1] at hres
      | some w =>
          simp only [clone_voice_fallback, hg, hg1] at hres ⊢
          obtain rfl := Option.some.inj hres
          exact ⟨rfl, by simp [hg1], hgt _ _ _ fs g1 hg⟩

theorem clone_voice_and_speak_fb_success_props (xtts : CloneEngine)
    (gtts : TtsLibEngine) (fs : FS) (text : String) (ra : Option FPath)
    (lang : String) (o : FPath) (p : FPath)
    (hgt : ∀ t l q g g1, gtts t l q g = .ok g1 → Preserves g g1)
    (hxo : ∀ t l q q2 g g1, xtts t l q q2 g = .ok g1 →
      Preserves g g1 ∧ (g1 q2).isSome)
    (hxe : ∀ t l q q2 g d g1, xtts t l q q2 g = .error (d, g1) → Preserves g g1)
    (hres : (clone_voice_and_speak_fb xtts gtts fs text ra lang o).result = some p) :
    p = o ∧ ((clone_voice_and_speak_fb xtts gtts fs text ra lang o).fs p).isSome ∧
      Preserves fs (clone_voice_and_speak_fb xtts gtts fs text ra lang o).fs := by
  cases hra : ra with
  | none =>
      simp only [clone_voice_and_speak_fb, hra] at hres ⊢
      exact clone_voice_fallback_success_props gtts fs text lang o p hgt hres
  | some r =>
      by_cases hr : (fs r).isSome
      · cases hx : xtts text (xtts_lang lang) r o fs with
        | ok g1 =>
            simp only [clone_voice_and_speak_fb, hra, hr, if_true, hx] at hres ⊢
            obtain rfl := Option.some.inj hres
            exact ⟨rfl, (hxo _ _ _ _ fs g1 hx).2, (hxo _ _ _ _ fs g1 hx).1⟩
        | error e =>
            obtain ⟨d, g1⟩ := e
            simp only [clone_voice_and_speak_fb, hra, hr, if_true, hx, withLog,
              withInv] at hres ⊢
            have h := clone_voice_fallback_success_props gtts g1 text lang o p hgt hres
            exact ⟨h.1, h.2.1, preserves_trans (hxe _ _ _ _ fs d g1 hx) h.2.2⟩
      · simp only [clone_voice_and_speak_fb, hra, hr, Bool.false_eq_true,
          if_false] at hres ⊢
        exact clone_voice_fallback_success_props gtts fs text lang o p hgt hres

theorem run_stage5_success_props (E : Engines) (fs : FS) (tp : FPath)
    (tl te : String) (ra : Option FPath) (p : FPath)
    (hba : ∀ t l q g g1, E.bark t l q g = .ok g1 → Preserves g g1)
    (hco : ∀ t l q g g1, E.coqui t l q g = .ok g1 → Preserves g g1)
    (hgt : ∀ t l q g g1, E.gtts t l q g = .ok g1 → Preserves g g1)
    (hyo : ∀ t l q q2 g g1, E.yourtts t l q q2 g = .ok g1 → Preserves g g1)
    (hxo : ∀ t l q q2 g g1, E.xtts t l q q2 g = .ok g1 →
      Preserves g g1 ∧ (g1 q2).isSome)
    (hxe : ∀ t l q q2 g d g1, E.xtts t l q q2 g = .error (d, g1) → Preserves g g1)
    (hres : (run_stage5 E fs tp tl te ra).result = some p) :
    p = TEMP_DUBBED_AUDIO_PATH ∧ ((run_stage5 E fs tp tl te ra).fs p).isSome ∧
      Preserves fs (run_stage5 E fs tp tl te ra).fs := by
  cases hra : ra with
  | none =>
      simp only [run_stage5, hra] at hres ⊢
      exact text_to_speech_success_props E.bark E.coqui E.gtts E.yourtts fs tp
        TEMP_DUBBED_AUDIO_PATH tl te none p hba hco hgt hyo hres
  | some r =>
      by_cases hvc : te = "voice_clone"
      · simp only [run_stage5, hra, if_pos hvc] at hres ⊢
        exact clone_voice_and_speak_fb_success_props E.xtts E.gtts fs _ (some r)
          tl TEMP_DUBBED_AUDIO_PATH p hgt hxo hxe hres
      · simp only [run_stage5, hra, if_neg hvc] at hres ⊢
        exact text_to_speech_success_props E.bark E.coqui E.gtts E.yourtts fs tp
          TEMP_DUBBED_AUDIO_PATH tl te (some r) p hba hco hgt hyo hres

theorem merge_success_props (ffmpeg : FfmpegEngine) (moviepy : MoviepyEngine)
    (fs : FS) (v a o : FPath) (p : FPath)
    (hff : ∀ cmd g c s g1, ffmpeg cmd g = .ok (c, s, g1) → Preserves g g1)
    (hres : (merge_video_audio ffmpeg moviepy fs v a o true).result = some p) :
    p = o ∧ ((merge_video_audio ffmpeg moviepy fs v a o true).fs p).isSome ∧
      Preserves fs (merge_video_audio ffmpeg moviepy fs v a o true).fs := by
  simp only [merge_video_audio, if_true] at hres ⊢
  by_cases hv : (fs v).isNone
  · simp [merge_video_audio_ffmpeg, hv] at hres
  · by_cases ha : (fs a).isNone
    · simp [merge_video_audio_ffmpeg, hv, ha] at hres
    · cases hfr : ffmpeg (merge_cmd v a o) fs with
      | error e =>
          obtain ⟨fnf, d, g1⟩ := e
          simp [merge_video_audio_ffmpeg, hv, ha, hfr] at hres
      | ok r =>
          obtain ⟨c, s, g1⟩ := r
          by_cases hc : c = 0
          · subst hc
            cases hg1 : g1 o with
            | none => simp [merge_video_audio_ffmpeg, hv, ha, hfr, hg1] at hres
            | some w =>
                simp only [merge_video_audio_ffmpeg, hv, ha, Bool.false_eq_true,
                  if_false, hfr, hg1] at hres ⊢
                simp at hres
                obtain rfl := hres
                exact ⟨rfl, by simp [hg1], hff _ fs 0 s g1 hfr⟩
          · simp [merge_video_audio_ffmpeg, hv, ha, hfr, hc] at hres

/-! ## Claim C1: the orchestrator aborts on the first stage failure -/

/-- Claim C1 (confirmed): in every run, if the stage numbered `k` returns a
failure, then `process_video` returns a failure result (no final artifact
path) and no stage after `k` is entered — every stage that ran has number at
most `k`, so no later stage's engine is invoked. -/
theorem pipeline_aborts_on_first_failure (E : Engines) (fs : FS)
    (url sl tl te : String) (ra : Option FPath) (k : Nat)
    (hk : (k, (none : Option FPath)) ∈
      (process_video E fs url sl tl te ra).stageResults) :
    (process_video E fs url sl tl te ra).result = none ∧
    (process_video E fs url sl tl te ra).stageResults.all
      (fun s => decide (s.1 ≤ k)) = true := by
  revert hk
  simp only [process_video]
  repeat' split
  all_goals intro hk
  all_goals simp_all

/-- Witness for claim C1: a run whose Extractor stage fails. -/
theorem pipeline_aborts_on_first_failure_witness :
    (process_video enginesFfmpegDead fsEmpty "u" "en" "tr" "gtts" none).result = none ∧
    (process_video enginesFfmpegDead fsEmpty "u" "en" "tr" "gtts" none).stageResults.all
      (fun s => decide (s.1 ≤ 2)) = true :=
  pipeline_aborts_on_first_failure enginesFfmpegDead fsEmpty "u" "en" "tr" "gtts"
    none 2 (by decide)

/-! ## Claim C4: the last candidate's error detail is reported -/

/-- When the pytube attempt raises and the yt-dlp attempt fails too, the
Acquirer stage returns a failure whose log's final error record is the
yt-dlp (second, last-attempted candidate) failure detail. -/
theorem download_both_fail (pytube : PytubeEngine) (ytdlp : YtdlpEngine)
    (fs fsp : FS) (url : String) (isPy : Bool) (d m : String)
    (hp : pytube url TEMP_VIDEO_PATH fs = .error (isPy, d, fsp))
    (hy : ytdlp_failure_detail (ytdlp url TEMP_VIDEO_PATH fsp) TEMP_VIDEO_PATH
      = some m) :
    (download_youtube_video pytube ytdlp fs url TEMP_VIDEO_PATH).result = none ∧
    lastErrorMsg (download_youtube_video pytube ytdlp fs url TEMP_VIDEO_PATH).log
      = some m := by
  cases hyy : ytdlp url TEMP_VIDEO_PATH fsp with
  | error e =>
      obtain ⟨fnf, d2, g⟩ := e
      rw [hyy] at hy
      simp only [ytdlp_failure_detail] at hy
      cases fnf <;> cases isPy <;>
        simp_all [download_youtube_video, download_video_with_yt_dlp, hp, hyy,
          lastErrorMsg, withLog, withInv, einfo, eerror, List.filter]
  | ok r =>
      obtain ⟨c, s2, g⟩ := r
      rw [hyy] at hy
      simp only [ytdlp_failure_detail] at hy
      by_cases hc : c = 0
      · subst hc
        rw [if_neg (fun h => h rfl)] at hy
        cases hg : g TEMP_VIDEO_PATH with
        | none =>
            rw [hg] at hy
            simp at hy
            cases isPy <;>
              simp_all [download_youtube_video, download_video_with_yt_dlp, hp,
                hyy, hg, lastErrorMsg, withLog, withInv, einfo, eerror,
                List.filter]
        | some w =>
            rw [hg] at hy
            simp at hy
      · simp only [if_pos hc] at hy
        cases isPy <;>
          simp_all [download_youtube_video, download_video_with_yt_dlp, hp, hyy,
            hc, lastErrorMsg, withLog, withInv, einfo, eerror, List.filter]

/-- Claim C4 (confirmed): when every Acquirer candidate fails (pytube raises
and the yt-dlp fallback fails as well), the stage returns a failure whose
last logged error detail is the **last** candidate's (yt-dlp's), and the
whole run ends failed at stage 1 with no artifact. -/
theorem stage_exhausted_carries_last_candidate_error (E : Engines) (fs fsp : FS)
    (url sl tl te : String) (ra : Option FPath) (isPy : Bool) (d m : String)
    (hp : E.pytube url TEMP_VIDEO_PATH fs = .error (isPy, d, fsp))
    (hy : ytdlp_failure_detail (E.ytdlp url TEMP_VIDEO_PATH fsp) TEMP_VIDEO_PATH
      = some m) :
    (download_youtube_video E.pytube E.ytdlp fs url TEMP_VIDEO_PATH).result = none ∧
    lastErrorMsg (download_youtube_video E.pytube E.ytdlp fs url TEMP_VIDEO_PATH).log
      = some m ∧
    (process_video E fs url sl tl te ra).result = none ∧
    (process_video E fs url sl tl te ra).stageResults = [(1, none)] := by
  have h := download_both_fail E.pytube E.ytdlp fs fsp url isPy d m hp hy
  refine ⟨h.1, h.2, ?_, ?_⟩ <;> simp [process_video, h.1]

/-- Witness for claim C4: both concrete download engines fail; the reported
detail is the second engine's. -/
theorem stage_exhausted_carries_last_candidate_error_witness :
    (download_youtube_video enginesDownloadDead.pytube enginesDownloadDead.ytdlp
      fsEmpty "u" TEMP_VIDEO_PATH).result = none ∧
    lastErrorMsg (download_youtube_video enginesDownloadDead.pytube
      enginesDownloadDead.ytdlp fsEmpty "u" TEMP_VIDEO_PATH).log
      = some "Error using yt-dlp: network down" ∧
    (process_video enginesDownloadDead fsEmpty "u" "en" "tr" "gtts" none).result = none ∧
    (process_video enginesDownloadDead fsEmpty "u" "en" "tr" "gtts" none).stageResults
      = [(1, none)] :=
  stage_exhausted_carries_last_candidate_error enginesDownloadDead fsEmpty fsEmpty
    "u" "en" "tr" "gtts" none true "HTTP Error 410" "Error using yt-dlp: network down"
    rfl rfl

/-! ## Claim C7: artifacts handed forward -/

/-- Claim C7, counterexample: a run in which yt-dlp exits 0 after writing an
**empty** video file.  The Acquirer reports success, and the orchestrator
hands the empty artifact to the Extractor — the hand-over of stage 2
carries content `some ""`, violating the claimed non-emptiness. -/
theorem orchestrator_passes_empty_artifact_forward :
    (2, TEMP_VIDEO_PATH, some "") ∈
      (process_video enginesEmptyVideo fsEmpty "u" "en" "tr" "gtts" none).handoffs := by
  decide

/-- Claim C7 (amended): the orchestrator hands a stage's returned artifact
path to the next stage only after the stage reported success, and — provided
engines never delete unrelated files and the XTTS voice-clone engine writes
its output file whenever it reports success — the file at every handed-over
path exists at the moment of the hand-over.  It may however be empty: the
orchestrator performs no non-emptiness check (see the counterexample). -/
theorem orchestrator_handoffs_exist (E : Engines) (fs : FS)
    (url sl tl te : String) (ra : Option FPath)
    (hpy : ∀ u o g g1, E.pytube u o g = .ok g1 → Preserves g g1)
    (hpe : ∀ u o g b d g1, E.pytube u o g = .error (b, d, g1) → Preserves g g1)
    (hyt : ∀ u o g c s g1, E.ytdlp u o g = .ok (c, s, g1) → Preserves g g1)
    (hff : ∀ cmd g c s g1, E.ffmpeg cmd g = .ok (c, s, g1) → Preserves g g1)
    (hba : ∀ t l q g g1, E.bark t l q g = .ok g1 → Preserves g g1)
    (hco : ∀ t l q g g1, E.coqui t l q g = .ok g1 → Preserves g g1)
    (hgt : ∀ t l q g g1, E.gtts t l q g = .ok g1 → Preserves g g1)
    (hyo : ∀ t l q q2 g g1, E.yourtts t l q q2 g = .ok g1 → Preserves g g1)
    (hxo : ∀ t l q q2 g g1, E.xtts t l q q2 g = .ok g1 →
      Preserves g g1 ∧ (g1 q2).isSome)
    (hxe : ∀ t l q q2 g d g1, E.xtts t l q q2 g = .error (d, g1) → Preserves g g1) :
    (process_video E fs url sl tl te ra).handoffs.all
      (fun h => h.2.2.isSome) = true := by
  simp only [process_video]
  have P1 := fun v => download_success_props E.pytube E.ytdlp fs url
    TEMP_VIDEO_PATH v hpy hpe hyt
  generalize hg1 : download_youtube_video E.pytube E.ytdlp fs url TEMP_VIDEO_PATH = s1
  rw [hg1] at P1
  cases hres1 : s1.result with
  | none => simp
  | some v =>
  dsimp only
  obtain ⟨-, hx1, hp1⟩ := P1 v hres1
  have P2 := fun p => extract_success_props E.ffmpeg s1.fs v TEMP_AUDIO_PATH
    16000 1 p hff
  generalize hg2 : extract_audio E.ffmpeg s1.fs v TEMP_AUDIO_PATH 16000 1 = s2
  rw [hg2] at P2
  cases hres2 : s2.result with
  | none => simp [hx1]
  | some a =>
  dsimp only
  obtain ⟨-, hx2, hp2⟩ := P2 a hres2
  have P3 := fun p => transcribe_success_props E.whisper s2.fs a
    TEMP_TRANSCRIPT_PATH WHISPER_MODEL sl p
  generalize hg3 : transcribe_audio E.whisper s2.fs a TEMP_TRANSCRIPT_PATH
    WHISPER_MODEL sl = s3
  rw [hg3] at P3
  cases hres3 : s3.result with
  | none => simp [hx1, hx2]
  | some t =>
  dsimp only
  obtain ⟨-, hx3, hp3⟩ := P3 t hres3
  have P4 := fun p => translate_success_props E.googleT E.openaiT s3.fs t
    TEMP_TRANSLATED_PATH sl tl TRANSLATION_ENGINE p
  generalize hg4 : translate_file E.googleT E.openaiT s3.fs t
    TEMP_TRANSLATED_PATH sl tl TRANSLATION_ENGINE = s4
  rw [hg4] at P4
  cases hres4 : s4.result with
  | none => simp [hx1, hx2, hx3]
  | some tr =>
  dsimp only
  obtain ⟨-, hx4, hp4⟩ := P4 tr hres4
  have P5 := fun p => run_stage5_success_props E s4.fs tr tl te ra p
    hba hco hgt hyo hxo hxe
  generalize hg5 : run_stage5 E s4.fs tr tl te ra = s5
  rw [hg5] at P5
  cases hres5 : s5.result with
  | none => simp [hx1, hx2, hx3, hx4]
  | some du =>
  dsimp only
  obtain ⟨-, hx5, hp5⟩ := P5 du hres5
  have hx6 : (s5.fs v).isSome := hp5 v (hp4 v (hp3 v (hp2 v hx1)))
  have P6 := fun p => merge_success_props E.ffmpeg E.moviepy s5.fs v du
    OUTPUT_VIDEO_PATH p hff
  generalize hg6 : merge_video_audio E.ffmpeg E.moviepy s5.fs v du
    OUTPUT_VIDEO_PATH true = s6
  cases hres6 : s6.result with
  | none => simp [hx1, hx2, hx3, hx4, hx5, hx6]
  | some o => simp [hx1, hx2, hx3, hx4, hx5, hx6]

/-- Witness for the amended claim C7: in a fully successful concrete run,
every handed-over artifact exists. -/
theorem orchestrator_handoffs_exist_witness :
    (process_video enginesOk fsEmpty "u" "en" "tr" "gtts" none).handoffs.all
      (fun h => h.2.2.isSome) = true :=
  orchestrator_handoffs_exist enginesOk fsEmpty "u" "en" "tr" "gtts" none
    (fun u o g g1 h => by
      cases h
      exact fsSet_preserves g o "VIDEO")
    (fun u o g b d g1 h => by cases h)
    (fun u o g c s g1 h => by
      cases h
      exact fsSet_preserves g o "VIDEO")
    (fun cmd g c s g1 h => by
      cases h
      exact fsSet_preserves g (cmd.getLast?.getD "") "OUT")
    (fun t l q g g1 h => by
      cases h
      exact fsSet_preserves g q "AUDIO")
    (fun t l q g g1 h => by
      cases h
      exact fsSet_preserves g q "AUDIO")
    (fun t l q g g1 h => by
      cases h
      exact fsSet_preserves g q "AUDIO")
    (fun t l q q2 g g1 h => by
      cases h
      exact fsSet_preserves g q2 "CLONED")
    (fun t l q q2 g g1 h => by
      cases h
      exact ⟨fsSet_preserves g q2 "CLONED", by simp [fsSet_self]⟩)
    (fun t l q q2 g d g1 h => by cases h)

end AIDub
